import Mathlib

/-!
Verification model of the transaction-intent auto-recording pipeline of the
Djassa-coach backend (src/Backend/main.py, chatbot_message, lines 1231-1376;
src/Backend/gemini_service.py, detect_transaction_intent; src/Backend/models.py).

The Python code is shallowly embedded: dynamic JSON values become the `Json`
inductive; Python numbers (int/float, with bool counting as a number as in
CPython's isinstance) become exact decimals `JNum`; SQLAlchemy rows become
structures; the database session becomes an explicit `Ledger` value; every
exception that the endpoint's try/except can catch is modelled by an `Option`
result (`none` = an exception escaped to the outer handler, which rolls nothing
back because every raise point precedes the first mutation).
All definitions are fuel-structural so that concrete runs reduce in the kernel.
-/

namespace Djassa

/-- An exact decimal number `mant / 10 ^ fexp`, the shape of every JSON number
literal.  Models the numbers produced by Python's `json.loads` (ints and
floats; the binary rounding of CPython floats is idealised away). -/
structure JNum where
  mant : Int
  fexp : Nat
deriving DecidableEq

/-- Rational value of a `JNum` (specification-level semantics). -/
def JNum.toRat (a : JNum) : ℚ := (a.mant : ℚ) / (10 : ℚ) ^ a.fexp

/-- Computable order on `JNum` by cross-multiplication. -/
def JNum.ble (a b : JNum) : Bool :=
  a.mant * 10 ^ b.fexp ≤ b.mant * 10 ^ a.fexp

/-- Python `int(x)` on a number: truncation toward zero. -/
def JNum.trunc (a : JNum) : Int := Int.tdiv a.mant (10 ^ a.fexp)

/-- Dynamically typed JSON value, as handled by the Python code. -/
inductive Json where
  | null
  | bool (b : Bool)
  | num (a : JNum)
  | str (s : String)
  | arr (xs : List Json)
  | obj (fields : List (String × Json))

/-- Python truthiness of a JSON value (`if x:`). -/
def Json.truthy : Json → Bool
  | .null => false
  | .bool b => b
  | .num a => a.mant ≠ 0
  | .str s => s ≠ ""
  | .arr xs => !xs.isEmpty
  | .obj fs => !fs.isEmpty

/-- Python `isinstance(x, (int, float))` view: bools are ints in CPython. -/
def Json.asPyNum : Json → Option JNum
  | .num a => some a
  | .bool b => some ⟨if b then 1 else 0, 0⟩
  | _ => none

/-- Key lookup in an object's field list (Python `dict` access). -/
def Json.lookupField : List (String × Json) → String → Option Json
  | [], _ => none
  | (k, v) :: fs, key => if k = key then some v else Json.lookupField fs key

/-- Python `d.get(key)` with default `None`; `none` models the `AttributeError`
raised when the receiver is not a dict. -/
def Json.pyGet (j : Json) (key : String) : Option Json :=
  match j with
  | .obj fs => some ((Json.lookupField fs key).getD .null)
  | _ => none

/-- Python `d.get(key, default)`; `none` models the `AttributeError` raised
when the receiver is not a dict.  A key present with value `null` yields
`null`, an absent key yields the default, exactly as in Python. -/
def Json.pyGetD (j : Json) (key : String) (dflt : Json) : Option Json :=
  match j with
  | .obj fs => some ((Json.lookupField fs key).getD dflt)
  | _ => none

/-- Python `v and isinstance(v, (int, float)) and v >= lo`, the guard used for
`quantite` (lo = 1), `montant` (lo = 100) and debt `montant` (lo = 500). -/
def numAtLeast (v : Json) (lo : JNum) : Bool :=
  v.truthy && (match v.asPyNum with
    | some a => JNum.ble lo a
    | none => false)

/-- Python `v and isinstance(v, str) and len(v) >= n`, the guard used for
`produit_nom` and `client_nom` (n = 2). -/
def strAtLeast (v : Json) (n : Nat) : Bool :=
  v.truthy && (match v with
    | .str s => n ≤ s.length
    | _ => false)

/-- The string carried by a JSON value (used only under a `strAtLeast` guard). -/
def Json.pyStr : Json → String
  | .str s => s
  | _ => ""

/-- Python `x == "s"` for a JSON value: true exactly for the equal string. -/
def Json.eqStr (j : Json) (s : String) : Bool :=
  match j with
  | .str t => t = s
  | _ => false

/-! ## String utilities mirroring the Python string operations -/

/-- Decimal digits of `n`, most significant first; fuel-structural so that it
reduces in the kernel (`natStr` passes `n` itself as fuel). -/
def natDigitsAux : Nat → Nat → List Char
  | 0, _ => []
  | _+1, 0 => []
  | fuel+1, n+1 => natDigitsAux fuel ((n+1) / 10) ++ [Char.ofNat (48 + (n+1) % 10)]

/-- Python `str(n)` for a nonnegative int. -/
def natStr (n : Nat) : String :=
  if n = 0 then "0" else String.mk (natDigitsAux n n)

/-- Python `str(z)` for an int. -/
def intStr (z : Int) : String :=
  if z < 0 then "-" ++ natStr (-z).toNat else natStr z.toNat

/-- Grouping step of `f"{n:,}"`: on the reversed digit list, insert a
separator after every three digits. -/
def group3Aux : Nat → List Char → List Char
  | 0, l => l
  | fuel+1, l => if l.length ≤ 3 then l else l.take 3 ++ ' ' :: group3Aux fuel (l.drop 3)

/-- Thousands grouping of a nonnegative int with spaces, the result of
`f"{montant:,}".replace(",", " ")` in gemini_service.format_fcfa. -/
def thousandsSep (n : Nat) : String :=
  String.mk ((group3Aux (natStr n).data.length (natStr n).data.reverse).reverse)

/-- gemini_service.format_fcfa: amount with space-grouped thousands + " FCFA". -/
def format_fcfa (z : Int) : String :=
  (if z < 0 then "-" ++ thousandsSep (-z).toNat else thousandsSep z.toNat) ++ " FCFA"

/-- Python whitespace recognised by `str.strip()`. -/
def isPyWs (c : Char) : Bool :=
  c = ' ' || c = '\t' || c = '\n' || c = '\r' || c = '\x0b' || c = '\x0c'

/-- Python `text.strip()`. -/
def pyStrip (s : String) : String :=
  String.mk (((s.data.dropWhile isPyWs).reverse.dropWhile isPyWs).reverse)

/-- List-level `startswith`. -/
def startsWithL : List Char → List Char → Bool
  | [], _ => true
  | _ :: _, [] => false
  | a :: as, b :: bs => a == b && startsWithL as bs

/-- Whether `m` occurs as a contiguous run inside `s` (SQL LIKE with a plain
pattern, i.e. Python `m in s`). -/
def occursIn (m : List Char) : List Char → Bool
  | [] => startsWithL m []
  | c :: cs => startsWithL m (c :: cs) || occursIn m cs

/-- Substring containment on strings. -/
def strContains (s pat : String) : Bool := occursIn pat.data s.data

/-- Python `text.startswith(p)`. -/
def pyStartsWith (s p : String) : Bool := startsWithL p.data s.data

/-- Python `text.endswith(p)`. -/
def pyEndsWith (s p : String) : Bool := startsWithL p.data.reverse s.data.reverse

/-- Python `text[n:]` (drop the first n characters). -/
def strDrop (s : String) (n : Nat) : String := String.mk (s.data.drop n)

/-- Python `text[:-n]` for n ≤ len (drop the last n characters). -/
def strDropRight (s : String) (n : Nat) : String :=
  String.mk (s.data.take (s.data.length - n))

/-- Python `text[:n]` (take the first n characters). -/
def strTake (s : String) (n : Nat) : String := String.mk (s.data.take n)

/-- ASCII lowercasing of one character; models both Python `str.lower` and the
SQL `lower()` the resolver query applies (product names in scope are ASCII). -/
def charLower (c : Char) : Char :=
  if 'A' ≤ c ∧ c ≤ 'Z' then Char.ofNat (c.toNat + 32) else c

/-- ASCII `lower` on a string. -/
def strLower (s : String) : String := String.mk (s.data.map charLower)

/-- SQL LIKE matching: `%` matches any run, `_` any single character, all other
characters literally.  Fuel-structural (`likeMatch` supplies ample fuel). -/
def likeMatchAux : Nat → List Char → List Char → Bool
  | 0, _, _ => false
  | _+1, [], s => s.isEmpty
  | fuel+1, p :: ps, s =>
    if p = '%' then
      likeMatchAux fuel ps s ||
        (match s with
          | [] => false
          | _ :: cs => likeMatchAux fuel (p :: ps) cs)
    else
      (match s with
        | [] => false
        | c :: cs => (if p = '_' then true else p == c) && likeMatchAux fuel ps cs)

/-- SQL LIKE on char lists. -/
def likeMatch (pat s : List Char) : Bool :=
  likeMatchAux (pat.length + s.length + 1) pat s

/-! ## JSON parsing (Python `json.loads` and the brace-extracting regex) -/

/-- JSON whitespace accepted between tokens. -/
def skipWs : List Char → List Char :=
  List.dropWhile (fun c => c = ' ' || c = '\t' || c = '\n' || c = '\r')

/-- Hex digit value. -/
def hexVal (c : Char) : Option Nat :=
  if '0' ≤ c ∧ c ≤ '9' then some (c.toNat - 48)
  else if 'a' ≤ c ∧ c ≤ 'f' then some (c.toNat - 87)
  else if 'A' ≤ c ∧ c ≤ 'F' then some (c.toNat - 55)
  else none

/-- String-literal body parser (after the opening quote), with JSON escapes. -/
def parseStrAux : Nat → List Char → List Char → Option (String × List Char)
  | 0, _, _ => none
  | _+1, [], _ => none
  | fuel+1, c :: cs, acc =>
    if c = '"' then some (String.mk acc.reverse, cs)
    else if c = '\\' then
      match cs with
      | [] => none
      | e :: cs2 =>
        if e = '"' then parseStrAux fuel cs2 ('"' :: acc)
        else if e = '\\' then parseStrAux fuel cs2 ('\\' :: acc)
        else if e = '/' then parseStrAux fuel cs2 ('/' :: acc)
        else if e = 'b' then parseStrAux fuel cs2 ('\x08' :: acc)
        else if e = 'f' then parseStrAux fuel cs2 ('\x0c' :: acc)
        else if e = 'n' then parseStrAux fuel cs2 ('\n' :: acc)
        else if e = 'r' then parseStrAux fuel cs2 ('\r' :: acc)
        else if e = 't' then parseStrAux fuel cs2 ('\t' :: acc)
        else if e = 'u' then
          match cs2 with
          | h1 :: h2 :: h3 :: h4 :: cs3 =>
            (match hexVal h1, hexVal h2, hexVal h3, hexVal h4 with
              | some a, some b, some c2, some d =>
                parseStrAux fuel cs3 (Char.ofNat (((a * 16 + b) * 16 + c2) * 16 + d) :: acc)
              | _, _, _, _ => none)
          | _ => none
        else none
    else parseStrAux fuel cs (c :: acc)

/-- Value of a digit run. -/
def digitsToNat (ds : List Char) : Nat :=
  ds.foldl (fun n c => n * 10 + (c.toNat - 48)) 0

/-- Assemble a `JNum` from sign, integer digits, fraction digits and exponent. -/
def mkJNum (neg : Bool) (ip fr : List Char) (expNeg : Bool) (ed : Nat) : JNum :=
  let m0 : Int := (digitsToNat (ip ++ fr) : Int)
  let m : Int := if neg then -m0 else m0
  let shift : Int := (if expNeg then -(ed : Int) else (ed : Int)) - (fr.length : Int)
  if 0 ≤ shift then ⟨m * 10 ^ shift.toNat, 0⟩ else ⟨m, (-shift).toNat⟩

/-- JSON number literal parser. -/
def parseNum (cs : List Char) : Option (JNum × List Char) :=
  let signSplit : Bool × List Char :=
    match cs with
    | '-' :: r => (true, r)
    | _ => (false, cs)
  let neg := signSplit.1
  let cs1 := signSplit.2
  let ip := cs1.takeWhile Char.isDigit
  let cs2 := cs1.dropWhile Char.isDigit
  if ip.isEmpty then none else
  let fracSplit : List Char × List Char × Bool :=
    match cs2 with
    | '.' :: r => (r.takeWhile Char.isDigit, r.dropWhile Char.isDigit, !(r.takeWhile Char.isDigit).isEmpty)
    | _ => ([], cs2, true)
  let fr := fracSplit.1
  let cs3 := fracSplit.2.1
  if !fracSplit.2.2 then none else
  let expSplit : Bool × List Char × List Char × Bool :=
    match cs3 with
    | 'e' :: '-' :: r2 => (true, r2.takeWhile Char.isDigit, r2.dropWhile Char.isDigit, !(r2.takeWhile Char.isDigit).isEmpty)
    | 'E' :: '-' :: r2 => (true, r2.takeWhile Char.isDigit, r2.dropWhile Char.isDigit, !(r2.takeWhile Char.isDigit).isEmpty)
    | 'e' :: '+' :: r2 => (false, r2.takeWhile Char.isDigit, r2.dropWhile Char.isDigit, !(r2.takeWhile Char.isDigit).isEmpty)
    | 'E' :: '+' :: r2 => (false, r2.takeWhile Char.isDigit, r2.dropWhile Char.isDigit, !(r2.takeWhile Char.isDigit).isEmpty)
    | 'e' :: r2 => (false, r2.takeWhile Char.isDigit, r2.dropWhile Char.isDigit, !(r2.takeWhile Char.isDigit).isEmpty)
    | 'E' :: r2 => (false, r2.takeWhile Char.isDigit, r2.dropWhile Char.isDigit, !(r2.takeWhile Char.isDigit).isEmpty)
    | _ => (false, [], cs3, true)
  if !expSplit.2.2.2 then none else
  some (mkJNum neg ip fr expSplit.1 (digitsToNat expSplit.2.1), expSplit.2.2.1)

/-- What the single-pass parser is currently building. -/
inductive PTask where
  | val
  | objRest (acc : List (String × Json))
  | arrRest (acc : List Json)

/-- One recursive JSON parser for values, object tails and array tails,
structural on fuel so that it evaluates in the kernel. -/
def parseStep : Nat → PTask → List Char → Option (Json × List Char)
  | 0, _, _ => none
  | fuel+1, .val, cs =>
    (match skipWs cs with
      | [] => none
      | c :: rest =>
        if c = '"' then
          match parseStrAux (rest.length + 1) rest [] with
          | some (s, r) => some (.str s, r)
          | none => none
        else if c = '\x7b' then
          match skipWs rest with
          | '\x7d' :: r => some (.obj [], r)
          | _ => parseStep fuel (.objRest []) rest
        else if c = '[' then
          match skipWs rest with
          | ']' :: r => some (.arr [], r)
          | _ => parseStep fuel (.arrRest []) rest
        else if c = 't' then
          match rest with
          | 'r' :: 'u' :: 'e' :: r => some (.bool true, r)
          | _ => none
        else if c = 'f' then
          match rest with
          | 'a' :: 'l' :: 's' :: 'e' :: r => some (.bool false, r)
          | _ => none
        else if c = 'n' then
          match rest with
          | 'u' :: 'l' :: 'l' :: r => some (.null, r)
          | _ => none
        else
          match parseNum (c :: rest) with
          | some (a, r) => some (.num a, r)
          | none => none)
  | fuel+1, .objRest acc, cs =>
    (match skipWs cs with
      | '"' :: r =>
        (match parseStrAux (r.length + 1) r [] with
          | some (k, r2) =>
            (match skipWs r2 with
              | ':' :: r3 =>
                (match parseStep fuel .val r3 with
                  | some (v, r4) =>
                    (match skipWs r4 with
                      | ',' :: r5 => parseStep fuel (.objRest (acc ++ [(k, v)])) r5
                      | '\x7d' :: r5 => some (.obj (acc ++ [(k, v)]), r5)
                      | _ => none)
                  | none => none)
              | _ => none)
          | none => none)
      | _ => none)
  | fuel+1, .arrRest acc, cs =>
    (match parseStep fuel .val cs with
      | some (v, r) =>
        (match skipWs r with
          | ',' :: r2 => parseStep fuel (.arrRest (acc ++ [v])) r2
          | ']' :: r2 => some (.arr (acc ++ [v]), r2)
          | _ => none)
      | none => none)

/-- Python `json.loads`: the whole text must be one JSON value. -/
def loads (s : String) : Option Json :=
  match parseStep (s.data.length + 1) .val s.data with
  | some (j, rest) => if (skipWs rest).isEmpty then some j else none
  | none => none

/-- Code-fence stripping of gemini_service.detect_transaction_intent
(lines 100-105): drop a leading three-backtick-json marker, then a leading
three-backtick marker, then a trailing three-backtick marker. -/
def stripFences (t : String) : String :=
  let t1 := if pyStartsWith t "```json" then strDrop t 7 else t
  let t2 := if pyStartsWith t1 "```" then strDrop t1 3 else t1
  if pyEndsWith t2 "```" then strDropRight t2 3 else t2

/-- The regex search for a brace-delimited run (DOTALL, greedy): the slice
from the first opening brace to the last closing brace after it, if any. -/
def extractBraces (s : String) : Option String :=
  let cs := s.data.dropWhile (fun c => c ≠ '\x7b')
  let rev := cs.reverse.dropWhile (fun c => c ≠ '\x7d')
  if rev.isEmpty then none else some (String.mk rev.reverse)

/-! ## Intent extraction (gemini_service.detect_transaction_intent) -/

/-- Outcome of the single external language-model call: the client is not
configured, the call raises, or it returns raw text. -/
inductive ModelCall where
  | unavailable
  | raises (msg : String)
  | replies (text : String)

/-- gemini_service.detect_transaction_intent (lines 14-114), as a function of
the model-call outcome.  Every failure path of the Python function returns a
dict rather than raising: the missing client returns the configured-error
dict; an exception from the call or from `json.loads` is caught by the
`except` clause which returns a false dict (the error string is carried
verbatim for the call, and summarised for the decode error since the model
only inspects `has_transaction`); a response without a brace-delimited run
returns the bare false dict. -/
def detect_transaction_intent (call : ModelCall) : Json :=
  match call with
  | .unavailable =>
    .obj [("has_transaction", .bool false), ("error", .str "API not configured")]
  | .raises msg =>
    .obj [("has_transaction", .bool false), ("error", .str msg)]
  | .replies raw =>
    match extractBraces (stripFences (pyStrip raw)) with
    | some s =>
      (match loads s with
        | some j => j
        | none => .obj [("has_transaction", .bool false), ("error", .str "json decode error")])
    | none => .obj [("has_transaction", .bool false)]

/-! ## Ledger data model (src/Backend/models.py), scoped to one boutique -/

/-- models.Produit (the fields the pipeline reads and writes). -/
structure Produit where
  id : Nat
  nom : String
  prix_unitaire : Int
  quantite_stock : Int
  active : Bool
  deleted : Bool
deriving DecidableEq

/-- models.Vente (the fields the pipeline writes). -/
structure Vente where
  produit_id : Nat
  quantite : Int
  prix_unitaire : Int
  montant_total : Int
deriving DecidableEq

/-- models.Depense (the fields the pipeline writes). -/
structure Depense where
  categorie : String
  montant : Int
  description : String
deriving DecidableEq

/-- models.Dette (the fields the pipeline writes; `statut` defaults to
"en_cours" in models.py line 107). -/
structure Dette where
  nom_client : String
  montant_initial : Int
  montant_restant : Int
  statut : String
deriving DecidableEq

/-- models.PaiementDette; the chat pipeline never creates or touches one. -/
structure PaiementDette where
  dette_index : Nat
  montant_paye : Int
deriving DecidableEq

/-- The persistent rows of one boutique visible to the pipeline. -/
structure Ledger where
  produits : List Produit
  ventes : List Vente
  depenses : List Depense
  dettes : List Dette
  paiements : List PaiementDette
deriving DecidableEq

/-- models.ChatLog rows of the boutique (the Abuse Guard reads them). -/
structure ChatLogRow where
  created_at : Int
  bot_response : String
deriving DecidableEq

/-- Predicate of the resolver query (main.py lines 1267-1272): active,
non-deleted and lowercased name LIKE-matching the lowercased extracted name
wrapped in percent signs. -/
def resolvePred (nom : String) (p : Produit) : Bool :=
  p.active && !p.deleted &&
    likeMatch ('%' :: (strLower nom).data ++ ['%']) (strLower p.nom).data

/-- Entity resolution (`.first()` on the query): first product of the catalog
satisfying the LIKE filter. -/
def resolveProduit (produits : List Produit) (nom : String) : Option Produit :=
  produits.find? (resolvePred nom)

/-- In-place ORM update of the row the resolver returned: apply `f` to the
first product satisfying `pred`. -/
def updateFirstMatch (l : List Produit) (pred : Produit → Bool) (f : Produit → Produit) :
    List Produit :=
  match l with
  | [] => []
  | x :: xs => if pred x then f x :: xs else x :: updateFirstMatch xs pred f

/-! ## The guarded committer (main.py lines 1255-1376) -/

/-- Outcome of one chat turn's auto-record block: the rows after the turn, the
`transaction_recorded` descriptor, the `auto_tx_feedback` string, and the
final `result["response"]` text. -/
structure CommitResult where
  ledger : Ledger
  txRecorded : Option Json
  feedback : Option String
  response : String

/-- Insufficient-stock feedback (main.py line 1298). -/
def insufficientMsg (eng : Bool) (p : Produit) : String :=
  if eng then
    "Insufficient stock for " ++ p.nom ++ " (" ++ intStr p.quantite_stock ++
      " available). Add stock first."
  else
    "Stock insuffisant pour " ++ p.nom ++ " (" ++ intStr p.quantite_stock ++
      " disponible). Ajoutez du stock d\x27abord."

/-- Product-not-found feedback (main.py line 1300). -/
def notFoundMsg (eng : Bool) (nom : String) : String :=
  if eng then "Product \x27" ++ nom ++ "\x27 not found. Add it to stock first."
  else "Produit \x27" ++ nom ++ "\x27 non trouvé. Ajoutez-le dans le stock d\x27abord."

/-- Missing-quantity feedback (main.py line 1302). -/
def askQuantityMsg (eng : Bool) : String :=
  if eng then "Specify the quantity (e.g., \x272 bags of rice\x27)."
  else "Précisez la quantité (ex: \x272 sacs de riz\x27)."

/-- Missing-product feedback (main.py line 1304). -/
def askProductMsg (eng : Bool) : String :=
  if eng then "Specify the product (e.g., \x27sold 3 soaps\x27)."
  else "Précisez le produit (ex: \x27vendu 3 savons\x27)."

/-- Expense-minimum feedback (main.py line 1335). -/
def askAmount100Msg (eng : Bool) : String :=
  if eng then "Specify the expense amount (minimum 100 FCFA)."
  else "Précisez le montant de la dépense (minimum 100 FCFA)."

/-- Debt-minimum feedback (main.py line 1365). -/
def askAmount500Msg (eng : Bool) : String :=
  if eng then "Specify the debt amount (minimum 500 FCFA)."
  else "Précisez le montant de la dette (minimum 500 FCFA)."

/-- Missing-client-name feedback (main.py line 1367). -/
def askClientNameMsg (eng : Bool) : String :=
  if eng then "Specify the client\x27s name."
  else "Précisez le nom du client."

/-- Rate-limit notice of the Abuse Guard (main.py line 1240). -/
def rateLimitMsg (eng : Bool) : String :=
  if eng then "Too many recent automatic transactions. Please use the forms to continue."
  else "Trop de transactions automatiques récentes. Utilisez les formulaires pour continuer."

/-- Fallback reply of the endpoint's generic `except` handler
(main.py line 1433). -/
def apologyMsg : String :=
  "Désolée, j\x27ai rencontré un problème technique. Pouvez-vous réessayer ? 🙏"

/-- Stock decrement applied to the resolved row (main.py line 1283). -/
def decStock (qz : Int) (x : Produit) : Produit :=
  { x with quantite_stock := x.quantite_stock - qz }

/-- Successful sale commit (main.py lines 1275-1296): append the Vente row,
decrement the resolved product's stock in the same transaction, build the
descriptor and overwrite the reply with the confirmation. -/
def venteCommit (lg : Ledger) (p : Produit) (pn : String) (qz : Int) (eng : Bool) :
    CommitResult :=
  let montant := qz * p.prix_unitaire
  let txMsg := (if eng then "Sale recorded: " else "Vente enregistrée: ") ++
    intStr qz ++ "x " ++ p.nom ++ " = " ++ format_fcfa montant
  { ledger :=
      { produits := updateFirstMatch lg.produits (resolvePred pn) (decStock qz),
        ventes := lg.ventes ++ [⟨p.id, qz, p.prix_unitaire, montant⟩],
        depenses := lg.depenses, dettes := lg.dettes, paiements := lg.paiements },
    txRecorded := some (.obj [("type", .str "vente"),
      ("details", .obj [("produit", .str p.nom), ("quantite", .num ⟨qz, 0⟩),
        ("montant", .num ⟨montant, 0⟩)]),
      ("success", .bool true), ("message", .str txMsg)]),
    feedback := none,
    response := (if eng then "Got it! " else "C\x27est noté ! ") ++ txMsg ++ " 💪" }

/-- Sale branch once the two detail fields are read (main.py lines 1263-1304):
validate the product name and the quantity, resolve, check stock, commit. -/
def venteChecked (lg : Ledger) (pnJ qJ : Json) (eng : Bool) (reply : String) :
    CommitResult :=
  if strAtLeast pnJ 2 then
    if numAtLeast qJ ⟨1, 0⟩ then
      let qz : Int := JNum.trunc ((qJ.asPyNum).getD ⟨0, 0⟩)
      let pn := pnJ.pyStr
      match resolveProduit lg.produits pn with
      | some p =>
        if qz ≤ p.quantite_stock then venteCommit lg p pn qz eng
        else ⟨lg, none, some (insufficientMsg eng p), reply⟩
      | none => ⟨lg, none, some (notFoundMsg eng pn), reply⟩
    else ⟨lg, none, some (askQuantityMsg eng), reply⟩
  else ⟨lg, none, some (askProductMsg eng), reply⟩

/-- Sale branch (main.py lines 1259-1304). `none` models an exception
(details is not a dict), caught by the endpoint's outer handler. -/
def commitVente (lg : Ledger) (details : Json) (eng : Bool) (reply : String) :
    Option CommitResult :=
  match details.pyGet "produit_nom", details.pyGet "quantite" with
  | some pnJ, some qJ => some (venteChecked lg pnJ qJ eng reply)
  | _, _ => none

/-- Expense commit after all validations (main.py lines 1315-1333). -/
def depenseCommit (lg : Ledger) (m : Int) (cat desc : String) (eng : Bool) :
    CommitResult :=
  let txMsg := (if eng then "Expense recorded: " else "Dépense enregistrée: ") ++
    format_fcfa m ++ " (" ++ cat ++ ")"
  { ledger :=
      { produits := lg.produits, ventes := lg.ventes,
        depenses := lg.depenses ++ [⟨cat, m, desc⟩],
        dettes := lg.dettes, paiements := lg.paiements },
    txRecorded := some (.obj [("type", .str "depense"),
      ("details", .obj [("categorie", .str cat), ("montant", .num ⟨m, 0⟩)]),
      ("success", .bool true), ("message", .str txMsg)]),
    feedback := none,
    response := (if eng then "Got it! " else "C\x27est noté ! ") ++ txMsg ++ " 📝" }

/-- Category check of the expense branch (main.py line 1314): the inner `if`
of the source has no `else`, so a truthy non-string category, or one shorter
than two characters, silently produces nothing. -/
def depenseCatChecked (lg : Ledger) (m : Int) (catJ descJ : Json) (eng : Bool)
    (reply : String) : CommitResult :=
  match catJ with
  | .str cat =>
    if 2 ≤ cat.length then
      depenseCommit lg m cat
        (match descJ with
          | .str d => strTake d 500
          | _ => "") eng
    else ⟨lg, none, none, reply⟩
  | _ => ⟨lg, none, none, reply⟩

/-- Expense branch once the detail fields are read (main.py lines 1307-1335),
including the `or "Autre"` and `or ""` defaults of lines 1311-1312. -/
def depenseChecked (lg : Ledger) (mJ catJ0 descJ0 : Json) (eng : Bool)
    (reply : String) : CommitResult :=
  if numAtLeast mJ ⟨100, 0⟩ then
    depenseCatChecked lg (JNum.trunc ((mJ.asPyNum).getD ⟨0, 0⟩))
      (if catJ0.truthy then catJ0 else .str "Autre")
      (if descJ0.truthy then descJ0 else .str "") eng reply
  else ⟨lg, none, some (askAmount100Msg eng), reply⟩

/-- Expense branch (main.py lines 1306-1335).  `none` models the exception
raised when details is not a dict (in the source the `categorie` and
`description` reads happen after the amount check, but on a dict no read
raises and on a non-dict the first read already raises, so reading all three
fields up front is observationally identical). -/
def commitDepense (lg : Ledger) (details : Json) (eng : Bool) (reply : String) :
    Option CommitResult :=
  match details.pyGet "montant_total", details.pyGet "categorie",
      details.pyGet "description" with
  | some mJ, some catJ0, some descJ0 =>
    some (depenseChecked lg mJ catJ0 descJ0 eng reply)
  | _, _, _ => none

/-- Debt commit after all validations (main.py lines 1343-1363); `statut`
takes its models.py default "en_cours" and the stored client name is
truncated to 100 characters while the message carries it whole. -/
def detteCommit (lg : Ledger) (m : Int) (cn : String) (eng : Bool) : CommitResult :=
  let txMsg := (if eng then "Debt recorded: " ++ cn ++ " owes " ++ format_fcfa m
    else "Dette enregistrée: " ++ cn ++ " doit " ++ format_fcfa m)
  { ledger :=
      { produits := lg.produits, ventes := lg.ventes,
        depenses := lg.depenses,
        dettes := lg.dettes ++ [⟨strTake cn 100, m, m, "en_cours"⟩],
        paiements := lg.paiements },
    txRecorded := some (.obj [("type", .str "dette"),
      ("details", .obj [("client", .str cn), ("montant", .num ⟨m, 0⟩)]),
      ("success", .bool true), ("message", .str txMsg)]),
    feedback := none,
    response := (if eng then "Got it! " else "C\x27est noté ! ") ++ txMsg ++ " 📋" }

/-- Debt branch once the detail fields are read (main.py lines 1338-1367). -/
def detteChecked (lg : Ledger) (cJ mJ : Json) (eng : Bool) (reply : String) :
    CommitResult :=
  if strAtLeast cJ 2 then
    if numAtLeast mJ ⟨500, 0⟩ then
      detteCommit lg (JNum.trunc ((mJ.asPyNum).getD ⟨0, 0⟩)) cJ.pyStr eng
    else ⟨lg, none, some (askAmount500Msg eng), reply⟩
  else ⟨lg, none, some (askClientNameMsg eng), reply⟩

/-- Debt branch (main.py lines 1337-1367).  `none` models the exception
raised when details is not a dict. -/
def commitDette (lg : Ledger) (details : Json) (eng : Bool) (reply : String) :
    Option CommitResult :=
  match details.pyGet "client_nom", details.pyGet "montant_total" with
  | some cJ, some mJ => some (detteChecked lg cJ mJ eng reply)
  | _, _ => none

/-- Confidence gate (main.py line 1255):
`intent.get("has_transaction") and intent.get("confidence", 0) >= 0.8` with
Python short-circuit and truthiness.  `none` models an exception: an
`AttributeError` when the intent is not a dict, or the `TypeError` raised by
comparing a non-number to 0.8 (the comparison is only reached when
`has_transaction` is truthy). -/
def gateResult (intent : Json) : Option Bool :=
  match intent.pyGet "has_transaction" with
  | none => none
  | some ht =>
    if ht.truthy then
      match intent.pyGetD "confidence" (.num ⟨0, 0⟩) with
      | none => none
      | some confV =>
        (match confV.asPyNum with
          | none => none
          | some q => some (JNum.ble ⟨8, 1⟩ q))
    else some false

/-- Lines 1255-1367: gate, type dispatch and guarded mutation.  `none` models
an exception escaping to the outer handler; in every such case no mutation
has yet happened. -/
def commitIntentCore (lg : Ledger) (intent : Json) (eng : Bool) (reply : String) :
    Option CommitResult :=
  match gateResult intent with
  | none => none
  | some false => some ⟨lg, none, none, reply⟩
  | some true =>
    match intent.pyGet "transaction_type", intent.pyGetD "details" (.obj []) with
    | some txType, some details =>
      if txType.eqStr "vente" then commitVente lg details eng reply
      else if txType.eqStr "depense" then commitDepense lg details eng reply
      else if txType.eqStr "dette" then commitDette lg details eng reply
      else some ⟨lg, none, none, reply⟩
    | _, _ => none

/-- Reply composition (main.py lines 1369-1376): the feedback string is
appended to the reply only when no transaction was recorded; an empty reply
is replaced by the feedback. -/
def composeResponse (r : CommitResult) : String :=
  match r.txRecorded with
  | some _ => r.response
  | none =>
    match r.feedback with
    | some f =>
      if f = "" then r.response
      else if r.response = "" then f
      else r.response ++ "\n\n💡 " ++ f
    | none => r.response

/-- Marker filter of the Abuse Guard's query (main.py line 1236):
`bot_response LIKE "%enregistrée:%" OR bot_response LIKE "%recorded:%"`. -/
def isAutoTxLog (r : ChatLogRow) : Bool :=
  strContains r.bot_response "enregistrée:" || strContains r.bot_response "recorded:"

/-- Abuse-Guard count (main.py lines 1232-1237): confirmations logged within
the trailing five minutes (300 seconds, `created_at >= now - 300`). -/
def recentAutoTxCount (logs : List ChatLogRow) (now : Int) : Nat :=
  (logs.filter (fun r => decide (now - 300 ≤ r.created_at) && isAutoTxLog r)).length

/-- One chat turn's auto-record block (main.py lines 1228-1376) with the reply
already produced: guard check, then extraction consumed through the gate and
the committer, then reply composition.  The extracted intent is a parameter;
when the guard blocks, the source never computes it.  The `none` branch of
the committer is the endpoint's outer `except` handler: ledger untouched,
apology reply, nothing recorded. -/
def chatAutoTurn (lg : Ledger) (logs : List ChatLogRow) (now : Int)
    (autoRecord : Bool) (intent : Json) (eng : Bool) (reply : String) : CommitResult :=
  if autoRecord then
    if 10 ≤ recentAutoTxCount logs now then
      let fb := rateLimitMsg eng
      ⟨lg, none, some fb, composeResponse ⟨lg, none, some fb, reply⟩⟩
    else
      match commitIntentCore lg intent eng reply with
      | some r => ⟨r.ledger, r.txRecorded, r.feedback, composeResponse r⟩
      | none => ⟨lg, none, none, apologyMsg⟩
  else ⟨lg, none, none, reply⟩

/-- Modelled from the spec words (section 4.4): a resolver that returns the
first active, non-deleted product whose name contains the extracted name as a
case-insensitive substring.  Kept separate from `resolveProduit`, which is
translated from the source's LIKE query, so the two can be compared. -/
def specResolveSubstr (produits : List Produit) (nom : String) : Option Produit :=
  produits.find? (fun p => p.active && !p.deleted &&
    strContains (strLower p.nom) (strLower nom))

/-- No SQL wildcard characters in a char list. -/
def noWild (l : List Char) : Bool := l.all (fun c => !(c = '%' || c = '_'))

/-- The failure condition of claim C3: no API client, the model call raises,
or the response text contains no brace-delimited run that `json.loads`
accepts. -/
def extractionFailsB : ModelCall → Bool
  | .unavailable => true
  | .raises _ => true
  | .replies t =>
    match extractBraces (stripFences (pyStrip t)) with
    | none => true
    | some s => (loads s).isNone

/-! ## Helper lemmas -/

theorem JNum.ble_iff (a b : JNum) : JNum.ble a b = true ↔ a.toRat ≤ b.toRat := by
  unfold JNum.ble JNum.toRat
  rw [decide_eq_true_iff]
  rw [div_le_div_iff₀ (by positivity) (by positivity)]
  constructor
  · intro h; exact_mod_cast h
  · intro h; exact_mod_cast h

theorem JNum.le_trunc_of_ble (k : Nat) (a : JNum)
    (h : JNum.ble ⟨(k : Int), 0⟩ a = true) : (k : Int) ≤ a.trunc := by
  unfold JNum.ble at h
  rw [decide_eq_true_iff] at h
  rw [pow_zero, mul_one] at h
  have hd : (0 : Int) < 10 ^ a.fexp := by positivity
  have hm : (0 : Int) ≤ a.mant :=
    le_trans (by positivity) h
  unfold JNum.trunc
  rw [Int.tdiv_eq_ediv hm (le_of_lt hd)]
  rw [Int.le_ediv_iff_mul_le hd]
  exact h

theorem find?_first {α : Type} (p : α → Bool) (l : List α) (a : α)
    (h : l.find? p = some a) :
    p a = true ∧ ∃ l1 l2, l = l1 ++ a :: l2 ∧ ∀ x ∈ l1, p x = false := by
  induction l with
  | nil => simp at h
  | cons x xs ih =>
    rw [List.find?] at h
    cases hp : p x with
    | true =>
      rw [hp] at h
      simp at h
      subst h
      exact ⟨hp, [], xs, by simp, by simp⟩
    | false =>
      rw [hp] at h
      simp at h
      obtain ⟨hpa, l1, l2, hsplit, hall⟩ := ih h
      subst hsplit
      refine ⟨hpa, x :: l1, l2, rfl, ?_⟩
      intro y hy
      rcases List.mem_cons.mp hy with hxy | hy2
      · subst hxy; exact hp
      · exact hall y hy2

theorem updateFirstMatch_append (pred : Produit → Bool) (f : Produit → Produit)
    (l1 : List Produit) (p : Produit) (l2 : List Produit)
    (h1 : ∀ x ∈ l1, pred x = false) (hp : pred p = true) :
    updateFirstMatch (l1 ++ p :: l2) pred f = l1 ++ f p :: l2 := by
  induction l1 with
  | nil => simp [updateFirstMatch, hp]
  | cons y ys ih =>
    have hy : pred y = false := h1 y (by simp)
    simp only [List.cons_append, updateFirstMatch, List.append_eq]
    rw [if_neg (by simp [hy])]
    rw [ih (fun x hx => h1 x (by simp [hx]))]

theorem strAtLeast_two (v : Json) (h : strAtLeast v 2 = true) :
    ∃ s, v = .str s ∧ 2 ≤ s.length := by
  cases v with
  | null => simp [strAtLeast, Json.truthy] at h
  | bool b => simp [strAtLeast, Json.truthy] at h
  | num a => simp [strAtLeast, Json.truthy] at h
  | arr xs => simp [strAtLeast, Json.truthy] at h
  | obj fs => simp [strAtLeast, Json.truthy] at h
  | str s =>
    simp only [strAtLeast, Bool.and_eq_true, decide_eq_true_iff] at h
    exact ⟨s, rfl, h.2⟩

theorem numAtLeast_spec (v : Json) (lo : JNum) (h : numAtLeast v lo = true) :
    ∃ a, v.asPyNum = some a ∧ JNum.ble lo a = true := by
  unfold numAtLeast at h
  cases hv : v.asPyNum with
  | none => rw [hv] at h; simp at h
  | some a =>
    rw [hv] at h
    simp only [Bool.and_eq_true] at h
    exact ⟨a, rfl, h.2⟩

theorem mem_updateFirstMatch (pred : Produit → Bool) (f : Produit → Produit)
    (l : List Produit) (x : Produit) (hx : x ∈ updateFirstMatch l pred f) :
    x ∈ l ∨ ∃ p, p ∈ l ∧ pred p = true ∧ x = f p := by
  induction l with
  | nil => simp [updateFirstMatch] at hx
  | cons y ys ih =>
    rw [updateFirstMatch] at hx
    by_cases hp : pred y = true
    · rw [if_pos hp] at hx
      rcases List.mem_cons.mp hx with hxy | h2
      · exact Or.inr ⟨y, by simp, hp, hxy⟩
      · exact Or.inl (List.mem_cons_of_mem _ h2)
    · rw [if_neg hp] at hx
      rcases List.mem_cons.mp hx with hxy | h2
      · exact Or.inl (by simp [hxy])
      · rcases ih h2 with hmem | ⟨p, hpmem, hpp, hxe⟩
        · exact Or.inl (List.mem_cons_of_mem _ hmem)
        · exact Or.inr ⟨p, List.mem_cons_of_mem _ hpmem, hpp, hxe⟩

theorem commitVente_eq_some (lg : Ledger) (d : Json) (eng : Bool) (reply : String)
    (r : CommitResult) (h : commitVente lg d eng reply = some r) :
    ∃ pnJ qJ, d.pyGet "produit_nom" = some pnJ ∧ d.pyGet "quantite" = some qJ ∧
      r = venteChecked lg pnJ qJ eng reply := by
  cases h1 : d.pyGet "produit_nom" with
  | none =>
    cases h2 : d.pyGet "quantite" <;> unfold commitVente at h <;> rw [h1, h2] at h <;>
      exact Option.noConfusion h
  | some pnJ =>
    cases h2 : d.pyGet "quantite" with
    | none => unfold commitVente at h; rw [h1, h2] at h; exact Option.noConfusion h
    | some qJ =>
      unfold commitVente at h
      rw [h1, h2] at h
      have h' : some (venteChecked lg pnJ qJ eng reply) = some r := h
      exact ⟨pnJ, qJ, rfl, rfl, (Option.some.inj h').symm⟩

theorem venteChecked_characterize (lg : Ledger) (pnJ qJ : Json) (eng : Bool)
    (reply : String) (r : CommitResult) (h : venteChecked lg pnJ qJ eng reply = r) :
    (r.ledger = lg ∧ r.txRecorded = none) ∨
    (∃ pn p, pnJ = .str pn ∧ 2 ≤ pn.length ∧ numAtLeast qJ ⟨1, 0⟩ = true ∧
      resolveProduit lg.produits pn = some p ∧
      JNum.trunc ((qJ.asPyNum).getD ⟨0, 0⟩) ≤ p.quantite_stock ∧
      r = venteCommit lg p pn (JNum.trunc ((qJ.asPyNum).getD ⟨0, 0⟩)) eng) := by
  unfold venteChecked at h
  by_cases hs : strAtLeast pnJ 2 = true
  · rw [if_pos hs] at h
    obtain ⟨pn, rfl, hlen⟩ := strAtLeast_two pnJ hs
    by_cases hq : numAtLeast qJ ⟨1, 0⟩ = true
    · rw [if_pos hq] at h
      simp only [Json.pyStr] at h
      cases hr : resolveProduit lg.produits pn with
      | none => rw [hr] at h; subst h; exact Or.inl ⟨rfl, rfl⟩
      | some p =>
        rw [hr] at h
        have h' : (if JNum.trunc ((qJ.asPyNum).getD ⟨0, 0⟩) ≤ p.quantite_stock then
            venteCommit lg p pn (JNum.trunc ((qJ.asPyNum).getD ⟨0, 0⟩)) eng
          else ⟨lg, none, some (insufficientMsg eng p), reply⟩) = r := h
        by_cases hstock : JNum.trunc ((qJ.asPyNum).getD ⟨0, 0⟩) ≤ p.quantite_stock
        · rw [if_pos hstock] at h'
          exact Or.inr ⟨pn, p, rfl, hlen, hq, hr, hstock, h'.symm⟩
        · rw [if_neg hstock] at h'; subst h'; exact Or.inl ⟨rfl, rfl⟩
    · rw [if_neg hq] at h; subst h; exact Or.inl ⟨rfl, rfl⟩
  · rw [if_neg hs] at h; subst h; exact Or.inl ⟨rfl, rfl⟩

theorem commitVente_characterize (lg : Ledger) (d : Json) (eng : Bool) (reply : String)
    (r : CommitResult) (h : commitVente lg d eng reply = some r) :
    (r.ledger = lg ∧ r.txRecorded = none) ∨
    (∃ pn qJ p, d.pyGet "produit_nom" = some (.str pn) ∧ d.pyGet "quantite" = some qJ ∧
      2 ≤ pn.length ∧ numAtLeast qJ ⟨1, 0⟩ = true ∧
      resolveProduit lg.produits pn = some p ∧
      JNum.trunc ((qJ.asPyNum).getD ⟨0, 0⟩) ≤ p.quantite_stock ∧
      r = venteCommit lg p pn (JNum.trunc ((qJ.asPyNum).getD ⟨0, 0⟩)) eng) := by
  obtain ⟨pnJ, qJ, h1, h2, hr⟩ := commitVente_eq_some lg d eng reply r h
  rcases venteChecked_characterize lg pnJ qJ eng reply r hr.symm with hl |
    ⟨pn, p, hpn, hlen, hq, hres, hstock, heq⟩
  · exact Or.inl hl
  · subst hpn
    exact Or.inr ⟨pn, qJ, p, h1, h2, hlen, hq, hres, hstock, heq⟩

theorem commitDepense_eq_some (lg : Ledger) (d : Json) (eng : Bool) (reply : String)
    (r : CommitResult) (h : commitDepense lg d eng reply = some r) :
    ∃ mJ catJ0 descJ0, d.pyGet "montant_total" = some mJ ∧
      d.pyGet "categorie" = some catJ0 ∧ d.pyGet "description" = some descJ0 ∧
      r = depenseChecked lg mJ catJ0 descJ0 eng reply := by
  cases h1 : d.pyGet "montant_total" with
  | none =>
    cases h2 : d.pyGet "categorie" <;> cases h3 : d.pyGet "description" <;>
      unfold commitDepense at h <;> rw [h1, h2, h3] at h <;> exact Option.noConfusion h
  | some mJ =>
    cases h2 : d.pyGet "categorie" with
    | none =>
      cases h3 : d.pyGet "description" <;> unfold commitDepense at h <;>
        rw [h1, h2, h3] at h <;> exact Option.noConfusion h
    | some catJ0 =>
      cases h3 : d.pyGet "description" with
      | none => unfold commitDepense at h; rw [h1, h2, h3] at h; exact Option.noConfusion h
      | some descJ0 =>
        unfold commitDepense at h
        rw [h1, h2, h3] at h
        have h' : some (depenseChecked lg mJ catJ0 descJ0 eng reply) = some r := h
        exact ⟨mJ, catJ0, descJ0, rfl, rfl, rfl, (Option.some.inj h').symm⟩

theorem depenseCatChecked_str (lg : Ledger) (m : Int) (cat : String) (descJ : Json)
    (eng : Bool) (reply : String) :
    depenseCatChecked lg m (.str cat) descJ eng reply =
      if 2 ≤ cat.length then
        depenseCommit lg m cat
          (match descJ with
            | .str d => strTake d 500
            | _ => "") eng
      else ⟨lg, none, none, reply⟩ := rfl

theorem depenseChecked_characterize (lg : Ledger) (mJ catJ0 descJ0 : Json) (eng : Bool)
    (reply : String) (r : CommitResult) (h : depenseChecked lg mJ catJ0 descJ0 eng reply = r) :
    r.ledger.produits = lg.produits ∧ r.ledger.ventes = lg.ventes ∧
    r.ledger.dettes = lg.dettes ∧ r.ledger.paiements = lg.paiements ∧
    (r.ledger.depenses = lg.depenses ∨
      ∃ dp, r.ledger.depenses = lg.depenses ++ [dp]) := by
  unfold depenseChecked at h
  by_cases hm : numAtLeast mJ ⟨100, 0⟩ = true
  · rw [if_pos hm] at h
    cases hcat : (if catJ0.truthy = true then catJ0 else Json.str "Autre") with
    | str cat =>
      rw [hcat, depenseCatChecked_str] at h
      by_cases hl : 2 ≤ cat.length
      · rw [if_pos hl] at h
        subst h
        exact ⟨rfl, rfl, rfl, rfl, Or.inr ⟨_, rfl⟩⟩
      · rw [if_neg hl] at h
        subst h
        exact ⟨rfl, rfl, rfl, rfl, Or.inl rfl⟩
    | null => rw [hcat] at h; subst h; exact ⟨rfl, rfl, rfl, rfl, Or.inl rfl⟩
    | bool b => rw [hcat] at h; subst h; exact ⟨rfl, rfl, rfl, rfl, Or.inl rfl⟩
    | num a => rw [hcat] at h; subst h; exact ⟨rfl, rfl, rfl, rfl, Or.inl rfl⟩
    | arr xs => rw [hcat] at h; subst h; exact ⟨rfl, rfl, rfl, rfl, Or.inl rfl⟩
    | obj fs => rw [hcat] at h; subst h; exact ⟨rfl, rfl, rfl, rfl, Or.inl rfl⟩
  · rw [if_neg hm] at h
    subst h
    exact ⟨rfl, rfl, rfl, rfl, Or.inl rfl⟩

theorem commitDette_eq_some (lg : Ledger) (d : Json) (eng : Bool) (reply : String)
    (r : CommitResult) (h : commitDette lg d eng reply = some r) :
    ∃ cJ mJ, d.pyGet "client_nom" = some cJ ∧ d.pyGet "montant_total" = some mJ ∧
      r = detteChecked lg cJ mJ eng reply := by
  cases h1 : d.pyGet "client_nom" with
  | none =>
    cases h2 : d.pyGet "montant_total" <;> unfold commitDette at h <;>
      rw [h1, h2] at h <;> exact Option.noConfusion h
  | some cJ =>
    cases h2 : d.pyGet "montant_total" with
    | none => unfold commitDette at h; rw [h1, h2] at h; exact Option.noConfusion h
    | some mJ =>
      unfold commitDette at h
      rw [h1, h2] at h
      have h' : some (detteChecked lg cJ mJ eng reply) = some r := h
      exact ⟨cJ, mJ, rfl, rfl, (Option.some.inj h').symm⟩

theorem detteChecked_characterize (lg : Ledger) (cJ mJ : Json) (eng : Bool)
    (reply : String) (r : CommitResult) (h : detteChecked lg cJ mJ eng reply = r) :
    r.ledger.produits = lg.produits ∧ r.ledger.ventes = lg.ventes ∧
    r.ledger.depenses = lg.depenses ∧ r.ledger.paiements = lg.paiements ∧
    (r.ledger.dettes = lg.dettes ∨
      ∃ dt, r.ledger.dettes = lg.dettes ++ [dt] ∧
        dt.montant_restant = dt.montant_initial ∧ dt.statut = "en_cours") := by
  unfold detteChecked at h
  by_cases hc : strAtLeast cJ 2 = true
  · rw [if_pos hc] at h
    by_cases hm : numAtLeast mJ ⟨500, 0⟩ = true
    · rw [if_pos hm] at h
      subst h
      exact ⟨rfl, rfl, rfl, rfl, Or.inr ⟨_, rfl, rfl, rfl⟩⟩
    · rw [if_neg hm] at h
      subst h
      exact ⟨rfl, rfl, rfl, rfl, Or.inl rfl⟩
  · rw [if_neg hc] at h
    subst h
    exact ⟨rfl, rfl, rfl, rfl, Or.inl rfl⟩

theorem ble_false_lt (a b : JNum) (h : JNum.ble a b = false) : b.toRat < a.toRat := by
  by_contra hc
  push_neg at hc
  rw [← JNum.ble_iff] at hc
  rw [h] at hc
  exact Bool.noConfusion hc

theorem toRat_gate_threshold : JNum.toRat ⟨8, 1⟩ = 4 / 5 := by
  norm_num [JNum.toRat]

theorem obj_pyGet_some (intent : Json) (k k2 : String) (v : Json)
    (h : intent.pyGet k = some v) : ∃ w, intent.pyGet k2 = some w := by
  cases intent with
  | obj fs => exact ⟨_, rfl⟩
  | null => simp [Json.pyGet] at h
  | bool b => simp [Json.pyGet] at h
  | num a => simp [Json.pyGet] at h
  | str s => simp [Json.pyGet] at h
  | arr xs => simp [Json.pyGet] at h

theorem obj_pyGetD_some (intent : Json) (k k2 : String) (v d : Json)
    (h : intent.pyGet k = some v) : ∃ w, intent.pyGetD k2 d = some w := by
  cases intent with
  | obj fs => exact ⟨_, rfl⟩
  | null => simp [Json.pyGet] at h
  | bool b => simp [Json.pyGet] at h
  | num a => simp [Json.pyGet] at h
  | str s => simp [Json.pyGet] at h
  | arr xs => simp [Json.pyGet] at h

theorem gateResult_some (intent : Json) (ht : Json)
    (h : intent.pyGet "has_transaction" = some ht) :
    gateResult intent =
      if ht.truthy then
        (match intent.pyGetD "confidence" (.num ⟨0, 0⟩) with
          | none => none
          | some confV =>
            (match confV.asPyNum with
              | none => none
              | some q => some (JNum.ble ⟨8, 1⟩ q)))
      else some false := by
  unfold gateResult
  rw [h]

theorem gateResult_false_of_falsy (intent : Json) (ht : Json)
    (h : intent.pyGet "has_transaction" = some ht) (hht : ht.truthy = false) :
    gateResult intent = some false := by
  rw [gateResult_some intent ht h, if_neg (by simp [hht])]

theorem gateResult_true_elim (intent : Json) (h : gateResult intent = some true) :
    ∃ ht c a, intent.pyGet "has_transaction" = some ht ∧ ht.truthy = true ∧
      intent.pyGetD "confidence" (.num ⟨0, 0⟩) = some c ∧ c.asPyNum = some a ∧
      JNum.ble ⟨8, 1⟩ a = true := by
  cases hht : intent.pyGet "has_transaction" with
  | none => unfold gateResult at h; rw [hht] at h; exact Option.noConfusion h
  | some ht =>
    rw [gateResult_some intent ht hht] at h
    by_cases htr : ht.truthy = true
    · rw [if_pos htr] at h
      cases hc : intent.pyGetD "confidence" (.num ⟨0, 0⟩) with
      | none => rw [hc] at h; exact Option.noConfusion h
      | some c =>
        rw [hc] at h
        have h' : (match c.asPyNum with
            | none => none
            | some q => some (JNum.ble ⟨8, 1⟩ q)) = some true := h
        cases ha : c.asPyNum with
        | none => rw [ha] at h'; exact Option.noConfusion h'
        | some a =>
          rw [ha] at h'
          have h'' : some (JNum.ble ⟨8, 1⟩ a) = some true := h'
          exact ⟨ht, c, a, rfl, htr, rfl, ha, Option.some.inj h''⟩
    · rw [if_neg htr] at h
      simp at h

theorem gateResult_false_core (lg : Ledger) (intent : Json) (eng : Bool) (reply : String)
    (h : gateResult intent = some false) :
    commitIntentCore lg intent eng reply = some ⟨lg, none, none, reply⟩ := by
  unfold commitIntentCore
  rw [h]

theorem core_gate_true (lg : Ledger) (intent : Json) (eng : Bool) (reply : String)
    (txType details : Json) (hg : gateResult intent = some true)
    (h1 : intent.pyGet "transaction_type" = some txType)
    (h2 : intent.pyGetD "details" (.obj []) = some details) :
    commitIntentCore lg intent eng reply =
      (if txType.eqStr "vente" then commitVente lg details eng reply
       else if txType.eqStr "depense" then commitDepense lg details eng reply
       else if txType.eqStr "dette" then commitDette lg details eng reply
       else some ⟨lg, none, none, reply⟩) := by
  unfold commitIntentCore
  rw [hg, h1, h2]

theorem chatAutoTurn_of_core (lg : Ledger) (logs : List ChatLogRow) (now : Int)
    (intent : Json) (eng : Bool) (reply : String) (r : CommitResult)
    (hcount : recentAutoTxCount logs now < 10)
    (h : commitIntentCore lg intent eng reply = some r) :
    chatAutoTurn lg logs now true intent eng reply =
      ⟨r.ledger, r.txRecorded, r.feedback, composeResponse r⟩ := by
  unfold chatAutoTurn
  rw [if_pos rfl, if_neg (by omega), h]

theorem chatAutoTurn_of_core_none (lg : Ledger) (logs : List ChatLogRow) (now : Int)
    (intent : Json) (eng : Bool) (reply : String)
    (hcount : recentAutoTxCount logs now < 10)
    (h : commitIntentCore lg intent eng reply = none) :
    chatAutoTurn lg logs now true intent eng reply = ⟨lg, none, none, apologyMsg⟩ := by
  unfold chatAutoTurn
  rw [if_pos rfl, if_neg (by omega), h]

theorem chatAutoTurn_noop (lg : Ledger) (logs : List ChatLogRow) (now : Int)
    (intent : Json) (eng : Bool) (reply : String)
    (hcount : recentAutoTxCount logs now < 10)
    (h : commitIntentCore lg intent eng reply = some ⟨lg, none, none, reply⟩) :
    chatAutoTurn lg logs now true intent eng reply = ⟨lg, none, none, reply⟩ := by
  rw [chatAutoTurn_of_core lg logs now intent eng reply _ hcount h]
  rfl

theorem obj_pyGet_some_of_getD (intent : Json) (k k2 : String) (d v : Json)
    (h : intent.pyGetD k d = some v) : ∃ w, intent.pyGet k2 = some w := by
  cases intent with
  | obj fs => exact ⟨_, rfl⟩
  | null => simp [Json.pyGetD] at h
  | bool b => simp [Json.pyGetD] at h
  | num a => simp [Json.pyGetD] at h
  | str s => simp [Json.pyGetD] at h
  | arr xs => simp [Json.pyGetD] at h

theorem gateResult_eval (intent ht c : Json) (a : JNum)
    (hht : intent.pyGet "has_transaction" = some ht) (htr : ht.truthy = true)
    (hc : intent.pyGetD "confidence" (.num ⟨0, 0⟩) = some c)
    (ha : c.asPyNum = some a) :
    gateResult intent = some (JNum.ble ⟨8, 1⟩ a) := by
  rw [gateResult_some intent ht hht, if_pos htr, hc]
  show (match c.asPyNum with
    | none => none
    | some q => some (JNum.ble ⟨8, 1⟩ q)) = some (JNum.ble ⟨8, 1⟩ a)
  rw [ha]

/-! ## The claims -/

/-- C1: an extracted intent whose `has_transaction` is false, or whose
confidence is a number below 0.8, commits nothing: the turn leaves every
ledger row untouched and carries only the conversational reply (no
`transaction_recorded`, no feedback).  Conversely, whenever a turn changes
the ledger, the gate of main.py line 1255 had passed: `has_transaction` was
truthy (for the boolean the TransactionIntent contract declares, that means
it was `true`) and the extracted confidence was a number ≥ 0.8. -/
theorem C1_confidence_gate_no_commit (lg : Ledger) (logs : List ChatLogRow) (now : Int)
    (intent : Json) (eng : Bool) (reply : String)
    (hcount : recentAutoTxCount logs now < 10)
    (hgate : intent.pyGet "has_transaction" = some (.bool false) ∨
      ∃ c a, intent.pyGetD "confidence" (.num ⟨0, 0⟩) = some c ∧
        c.asPyNum = some a ∧ a.toRat < 4 / 5) :
    chatAutoTurn lg logs now true intent eng reply = ⟨lg, none, none, reply⟩ ∧
    ∀ intent2 : Json,
      (chatAutoTurn lg logs now true intent2 eng reply).ledger ≠ lg →
      ∃ ht c a, intent2.pyGet "has_transaction" = some ht ∧ ht.truthy = true ∧
        (∀ b, ht = .bool b → b = true) ∧
        intent2.pyGetD "confidence" (.num ⟨0, 0⟩) = some c ∧ c.asPyNum = some a ∧
        (4 : ℚ) / 5 ≤ a.toRat := by
  constructor
  · have hg : gateResult intent = some false := by
      rcases hgate with hfalse | ⟨c, a, hc, ha, hlt⟩
      · exact gateResult_false_of_falsy intent _ hfalse rfl
      · obtain ⟨ht, hht⟩ := obj_pyGet_some_of_getD intent "confidence" "has_transaction" _ _ hc
        cases htr : ht.truthy with
        | false => exact gateResult_false_of_falsy intent ht hht htr
        | true =>
          have hble : JNum.ble ⟨8, 1⟩ a = false := by
            cases hb : JNum.ble ⟨8, 1⟩ a with
            | false => rfl
            | true =>
              exfalso
              have hge := (JNum.ble_iff ⟨8, 1⟩ a).mp hb
              rw [toRat_gate_threshold] at hge
              exact absurd hge (not_le.mpr hlt)
          rw [gateResult_eval intent ht c a hht htr hc ha, hble]
    exact chatAutoTurn_noop lg logs now intent eng reply hcount
      (gateResult_false_core lg intent eng reply hg)
  · intro intent2 hne
    cases hcore : commitIntentCore lg intent2 eng reply with
    | none =>
      rw [chatAutoTurn_of_core_none lg logs now intent2 eng reply hcount hcore] at hne
      exact absurd rfl hne
    | some r =>
      rw [chatAutoTurn_of_core lg logs now intent2 eng reply r hcount hcore] at hne
      cases hgr : gateResult intent2 with
      | none =>
        unfold commitIntentCore at hcore
        rw [hgr] at hcore
        exact Option.noConfusion hcore
      | some b =>
        cases b with
        | false =>
          have heq := (gateResult_false_core lg intent2 eng reply hgr).symm.trans hcore
          have hr := Option.some.inj heq
          subst hr
          exact absurd rfl hne
        | true =>
          obtain ⟨ht, c, a, hht, htr, hc, ha, hble⟩ := gateResult_true_elim intent2 hgr
          refine ⟨ht, c, a, hht, htr, ?_, hc, ha, ?_⟩
          · intro b hb
            subst hb
            simpa [Json.truthy] using htr
          · have hge := (JNum.ble_iff ⟨8, 1⟩ a).mp hble
            rwa [toRat_gate_threshold] at hge

/-- Witness for C1: a confident-looking sale intent whose confidence 0.5 is
below the gate leaves a one-product ledger untouched and keeps the reply. -/
theorem C1_confidence_gate_no_commit_witness :
    chatAutoTurn ⟨[⟨1, "riz", 15000, 10, true, false⟩], [], [], [], []⟩ [] 0 true
      (.obj [("has_transaction", .bool true), ("transaction_type", .str "vente"),
        ("details", .obj [("produit_nom", .str "riz"), ("quantite", .num ⟨2, 0⟩)]),
        ("confidence", .num ⟨5, 1⟩)]) false "ok" =
      ⟨⟨[⟨1, "riz", 15000, 10, true, false⟩], [], [], [], []⟩, none, none, "ok"⟩ :=
  (C1_confidence_gate_no_commit ⟨[⟨1, "riz", 15000, 10, true, false⟩], [], [], [], []⟩
    [] 0
    (.obj [("has_transaction", .bool true), ("transaction_type", .str "vente"),
      ("details", .obj [("produit_nom", .str "riz"), ("quantite", .num ⟨2, 0⟩)]),
      ("confidence", .num ⟨5, 1⟩)]) false "ok" (by decide)
    (Or.inr ⟨.num ⟨5, 1⟩, ⟨5, 1⟩, rfl, rfl,
      toRat_gate_threshold ▸ ble_false_lt ⟨8, 1⟩ ⟨5, 1⟩ rfl⟩)).1

/-- C10: an intent that passes the confidence gate but whose
`transaction_type` is none of "vente", "depense", "dette" (null, another
string, a non-string) matches no branch of the committer: no row is created,
no feedback is produced, and the response is exactly the conversational
reply. -/
theorem C10_unknown_type_silent (lg : Ledger) (logs : List ChatLogRow) (now : Int)
    (intent : Json) (eng : Bool) (reply : String) (t : Json)
    (hcount : recentAutoTxCount logs now < 10)
    (hg : gateResult intent = some true)
    (ht : intent.pyGet "transaction_type" = some t)
    (hv : t.eqStr "vente" = false) (hd : t.eqStr "depense" = false)
    (hde : t.eqStr "dette" = false) :
    chatAutoTurn lg logs now true intent eng reply = ⟨lg, none, none, reply⟩ := by
  obtain ⟨details, hdet⟩ :=
    obj_pyGetD_some intent "transaction_type" "details" t (.obj []) ht
  have hcore : commitIntentCore lg intent eng reply = some ⟨lg, none, none, reply⟩ := by
    rw [core_gate_true lg intent eng reply t details hg ht hdet,
      if_neg (by simp [hv]), if_neg (by simp [hd]), if_neg (by simp [hde])]
  exact chatAutoTurn_noop lg logs now intent eng reply hcount hcore

/-- Witness for C10: a confident intent with `transaction_type` null. -/
theorem C10_unknown_type_silent_witness :
    chatAutoTurn ⟨[], [], [], [], []⟩ [] 0 true
      (.obj [("has_transaction", .bool true), ("transaction_type", .null),
        ("details", .obj []), ("confidence", .num ⟨9, 1⟩)]) false "hello" =
      ⟨⟨[], [], [], [], []⟩, none, none, "hello"⟩ :=
  C10_unknown_type_silent _ [] 0 _ false "hello" .null (by decide) rfl rfl rfl rfl rfl

theorem composeResponse_feedback (lg : Ledger) (f reply : String) :
    composeResponse ⟨lg, none, some f, reply⟩ =
      if f = "" then reply
      else if reply = "" then f
      else reply ++ "\n\n💡 " ++ f := rfl

/-- C4: once the trailing-five-minute count of auto-record confirmations has
reached ten, the next auto-record turn is decided before the extracted intent
is even consulted: the outcome is the same for every intent (so neither the
Entity Resolver nor the Transaction Committer runs), the ledger is untouched,
the rate-limit notice replaces any recording, and the conversational reply is
still produced with the notice appended. -/
theorem C4_abuse_guard_blocks (lg : Ledger) (logs : List ChatLogRow) (now : Int)
    (intent intent2 : Json) (eng : Bool) (reply : String)
    (hcount : 10 ≤ recentAutoTxCount logs now) :
    chatAutoTurn lg logs now true intent eng reply =
      ⟨lg, none, some (rateLimitMsg eng),
        composeResponse ⟨lg, none, some (rateLimitMsg eng), reply⟩⟩ ∧
    chatAutoTurn lg logs now true intent eng reply =
      chatAutoTurn lg logs now true intent2 eng reply ∧
    (reply ≠ "" →
      (chatAutoTurn lg logs now true intent eng reply).response =
        reply ++ "\n\n💡 " ++ rateLimitMsg eng) := by
  have hturn : ∀ i : Json, chatAutoTurn lg logs now true i eng reply =
      ⟨lg, none, some (rateLimitMsg eng),
        composeResponse ⟨lg, none, some (rateLimitMsg eng), reply⟩⟩ := by
    intro i
    unfold chatAutoTurn
    rw [if_pos rfl, if_pos hcount]
  refine ⟨hturn intent, (hturn intent).trans (hturn intent2).symm, ?_⟩
  intro hr
  rw [hturn intent]
  show composeResponse ⟨lg, none, some (rateLimitMsg eng), reply⟩ =
    reply ++ "\n\n💡 " ++ rateLimitMsg eng
  rw [composeResponse_feedback,
    if_neg (by cases eng <;> decide : ¬ rateLimitMsg eng = ""), if_neg hr]

/-- Witness for C4: ten recent confirmation logs block the eleventh turn. -/
theorem C4_abuse_guard_blocks_witness :
    chatAutoTurn ⟨[], [], [], [], []⟩
      (List.replicate 10 ⟨0, "Vente enregistrée: 1x riz = 100 FCFA"⟩) 0 true
      (.obj [("has_transaction", .bool true)]) false "hi" =
      ⟨⟨[], [], [], [], []⟩, none, some (rateLimitMsg false),
        composeResponse ⟨⟨[], [], [], [], []⟩, none, some (rateLimitMsg false), "hi"⟩⟩ :=
  (C4_abuse_guard_blocks ⟨[], [], [], [], []⟩
    (List.replicate 10 ⟨0, "Vente enregistrée: 1x riz = 100 FCFA"⟩) 0
    (.obj [("has_transaction", .bool true)]) (.obj []) false "hi" (by decide)).1

/-- C3: whenever extraction fails (no API client, the model call raises, or
the response text holds no brace-delimited run that `json.loads` accepts),
`detect_transaction_intent` still returns a dict — the model function is
total, every exception being caught — whose `has_transaction` is `false`;
consequently an auto-record turn fed by it leaves the ledger untouched and
carries only the conversational reply. -/
theorem C3_extraction_failure_safe (call : ModelCall)
    (h : extractionFailsB call = true) :
    (detect_transaction_intent call).pyGet "has_transaction" = some (.bool false) ∧
    ∀ (lg : Ledger) (logs : List ChatLogRow) (now : Int) (eng : Bool) (reply : String),
      recentAutoTxCount logs now < 10 →
      chatAutoTurn lg logs now true (detect_transaction_intent call) eng reply =
        ⟨lg, none, none, reply⟩ := by
  have hfalse : (detect_transaction_intent call).pyGet "has_transaction" =
      some (.bool false) := by
    cases call with
    | unavailable => rfl
    | raises msg => rfl
    | replies t =>
      have h' : (match extractBraces (stripFences (pyStrip t)) with
        | none => true
        | some s => (loads s).isNone) = true := h
      show (match extractBraces (stripFences (pyStrip t)) with
        | some s =>
          (match loads s with
            | some j => j
            | none => Json.obj [("has_transaction", .bool false),
                ("error", .str "json decode error")])
        | none => Json.obj [("has_transaction", .bool false)]).pyGet
          "has_transaction" = some (.bool false)
      cases hb : extractBraces (stripFences (pyStrip t)) with
      | none => rfl
      | some s =>
        rw [hb] at h'
        have h'' : (loads s).isNone = true := h'
        show (match loads s with
          | some j => j
          | none => Json.obj [("has_transaction", .bool false),
              ("error", .str "json decode error")]).pyGet
            "has_transaction" = some (.bool false)
        cases hl : loads s with
        | none => rfl
        | some j => rw [hl] at h''; simp at h''
  refine ⟨hfalse, ?_⟩
  intro lg logs now eng reply hcount
  exact chatAutoTurn_noop lg logs now _ eng reply hcount
    (gateResult_false_core lg _ eng reply
      (gateResult_false_of_falsy _ _ hfalse rfl))

/-- Witness for C3: a chatty model response whose braces hold no JSON. -/
theorem C3_extraction_failure_safe_witness :
    (detect_transaction_intent (.replies "Sure! \x7bnot json\x7d")).pyGet
      "has_transaction" = some (.bool false) ∧
    chatAutoTurn ⟨[], [], [], [], []⟩ [] 0 true
      (detect_transaction_intent (.replies "Sure! \x7bnot json\x7d")) false "ok" =
      ⟨⟨[], [], [], [], []⟩, none, none, "ok"⟩ :=
  ⟨(C3_extraction_failure_safe (.replies "Sure! \x7bnot json\x7d") rfl).1,
    (C3_extraction_failure_safe (.replies "Sure! \x7bnot json\x7d") rfl).2
      ⟨[], [], [], [], []⟩ [] 0 false "ok" (by decide)⟩

theorem strAtLeast_two_intro (s : String) (h : 2 ≤ s.length) :
    strAtLeast (.str s) 2 = true := by
  simp only [strAtLeast, Json.truthy, Bool.and_eq_true, decide_eq_true_iff]
  refine ⟨?_, h⟩
  intro he
  subst he
  exact absurd h (by decide)

theorem eqStr_vente_dette : (Json.str "dette").eqStr "vente" = false := rfl

theorem core_dette (lg : Ledger) (intent : Json) (eng : Bool) (reply : String)
    (details cJ mJ : Json)
    (hg : gateResult intent = some true)
    (ht : intent.pyGet "transaction_type" = some (.str "dette"))
    (hdet : intent.pyGetD "details" (.obj []) = some details)
    (hc : details.pyGet "client_nom" = some cJ)
    (hm : details.pyGet "montant_total" = some mJ) :
    commitIntentCore lg intent eng reply = some (detteChecked lg cJ mJ eng reply) := by
  rw [core_gate_true lg intent eng reply _ details hg ht hdet,
    if_neg (by simp [Json.eqStr]), if_neg (by simp [Json.eqStr]),
    if_pos (by simp [Json.eqStr])]
  unfold commitDette
  rw [hc, hm]

/-- C9: a confident debt intent with a client-name string of at least two
characters and a numeric amount of at least 500 creates exactly one Dette row
with `montant_restant = montant_initial` and the models.py default status
"en_cours" (open); the turn never touches products, sales, expenses, debt
payments or the pre-existing debts.  A missing/invalid name asks for the
client name, and a valid name with a missing or too-low amount asks for the
500-FCFA minimum. -/
theorem C9_debt_creation (lg : Ledger) (logs : List ChatLogRow) (now : Int)
    (intent : Json) (eng : Bool) (reply : String) (details cJ mJ : Json)
    (hcount : recentAutoTxCount logs now < 10)
    (hg : gateResult intent = some true)
    (ht : intent.pyGet "transaction_type" = some (.str "dette"))
    (hdet : intent.pyGetD "details" (.obj []) = some details)
    (hc : details.pyGet "client_nom" = some cJ)
    (hm : details.pyGet "montant_total" = some mJ) :
    (∀ cn, cJ = .str cn → 2 ≤ cn.length → numAtLeast mJ ⟨500, 0⟩ = true →
      (chatAutoTurn lg logs now true intent eng reply).ledger.dettes =
        lg.dettes ++ [⟨strTake cn 100, JNum.trunc ((mJ.asPyNum).getD ⟨0, 0⟩),
          JNum.trunc ((mJ.asPyNum).getD ⟨0, 0⟩), "en_cours"⟩] ∧
      500 ≤ JNum.trunc ((mJ.asPyNum).getD ⟨0, 0⟩) ∧
      (chatAutoTurn lg logs now true intent eng reply).ledger.produits = lg.produits ∧
      (chatAutoTurn lg logs now true intent eng reply).ledger.ventes = lg.ventes ∧
      (chatAutoTurn lg logs now true intent eng reply).ledger.depenses = lg.depenses ∧
      (chatAutoTurn lg logs now true intent eng reply).ledger.paiements = lg.paiements ∧
      (chatAutoTurn lg logs now true intent eng reply).txRecorded.isSome = true) ∧
    (strAtLeast cJ 2 = false →
      chatAutoTurn lg logs now true intent eng reply =
        ⟨lg, none, some (askClientNameMsg eng),
          composeResponse ⟨lg, none, some (askClientNameMsg eng), reply⟩⟩) ∧
    (strAtLeast cJ 2 = true → numAtLeast mJ ⟨500, 0⟩ = false →
      chatAutoTurn lg logs now true intent eng reply =
        ⟨lg, none, some (askAmount500Msg eng),
          composeResponse ⟨lg, none, some (askAmount500Msg eng), reply⟩⟩) := by
  have hcore := core_dette lg intent eng reply details cJ mJ hg ht hdet hc hm
  have hturn := chatAutoTurn_of_core lg logs now intent eng reply _ hcount hcore
  refine ⟨?_, ?_, ?_⟩
  · intro cn hcn hlen hm500
    subst hcn
    have hchk : detteChecked lg (.str cn) mJ eng reply =
        detteCommit lg (JNum.trunc ((mJ.asPyNum).getD ⟨0, 0⟩)) cn eng := by
      unfold detteChecked
      rw [if_pos (strAtLeast_two_intro cn hlen), if_pos hm500]
      rfl
    rw [hturn, hchk]
    obtain ⟨a, ha, hble⟩ := numAtLeast_spec mJ ⟨500, 0⟩ hm500
    have h500 : 500 ≤ JNum.trunc ((mJ.asPyNum).getD ⟨0, 0⟩) := by
      rw [ha]
      exact_mod_cast JNum.le_trunc_of_ble 500 a hble
    exact ⟨rfl, h500, rfl, rfl, rfl, rfl, rfl⟩
  · intro hcfail
    have hchk : detteChecked lg cJ mJ eng reply =
        ⟨lg, none, some (askClientNameMsg eng), reply⟩ := by
      unfold detteChecked
      rw [if_neg (by simp [hcfail])]
    rw [hturn, hchk]
  · intro hcok hmfail
    have hchk : detteChecked lg cJ mJ eng reply =
        ⟨lg, none, some (askAmount500Msg eng), reply⟩ := by
      unfold detteChecked
      rw [if_pos hcok, if_neg (by simp [hmfail])]
    rw [hturn, hchk]

/-- Witness for C9, the spec's debt scenario: "Mamadou owes 5000", confidence
0.85, appends Dette(Mamadou, 5000, 5000, en_cours) after an existing debt. -/
theorem C9_debt_creation_witness :
    (chatAutoTurn ⟨[], [], [], [⟨"Ali", 100, 100, "en_cours"⟩], []⟩ [] 0 true
      (.obj [("has_transaction", .bool true), ("transaction_type", .str "dette"),
        ("details", .obj [("client_nom", .str "Mamadou"),
          ("montant_total", .num ⟨5000, 0⟩)]),
        ("confidence", .num ⟨85, 2⟩)]) false "ok").ledger.dettes =
      [⟨"Ali", 100, 100, "en_cours"⟩, ⟨"Mamadou", 5000, 5000, "en_cours"⟩] := by
  have h := ((C9_debt_creation ⟨[], [], [], [⟨"Ali", 100, 100, "en_cours"⟩], []⟩ [] 0
    (.obj [("has_transaction", .bool true), ("transaction_type", .str "dette"),
      ("details", .obj [("client_nom", .str "Mamadou"),
        ("montant_total", .num ⟨5000, 0⟩)]),
      ("confidence", .num ⟨85, 2⟩)]) false "ok"
    (.obj [("client_nom", .str "Mamadou"), ("montant_total", .num ⟨5000, 0⟩)])
    (.str "Mamadou") (.num ⟨5000, 0⟩)
    (by decide) rfl rfl rfl rfl rfl).1 "Mamadou" rfl (by decide) rfl).1
  exact h

theorem core_depense (lg : Ledger) (intent : Json) (eng : Bool) (reply : String)
    (details mJ catJ0 descJ0 : Json)
    (hg : gateResult intent = some true)
    (ht : intent.pyGet "transaction_type" = some (.str "depense"))
    (hdet : intent.pyGetD "details" (.obj []) = some details)
    (hm : details.pyGet "montant_total" = some mJ)
    (hcat : details.pyGet "categorie" = some catJ0)
    (hdesc : details.pyGet "description" = some descJ0) :
    commitIntentCore lg intent eng reply =
      some (depenseChecked lg mJ catJ0 descJ0 eng reply) := by
  rw [core_gate_true lg intent eng reply _ details hg ht hdet,
    if_neg (by simp [Json.eqStr]), if_pos (by simp [Json.eqStr])]
  unfold commitDepense
  rw [hm, hcat, hdesc]

/-- C8 counterexample: a confident expense intent with a valid amount (200 ≥
100) and a present but one-character category commits nothing — as the claim
demands — but also produces no corrective instruction at all: the response is
exactly the conversational reply, refuting "a specific corrective instruction
... is appended ... for every validation-failure shape". -/
theorem C8_counterexample :
    numAtLeast (.num ⟨200, 0⟩) ⟨100, 0⟩ = true ∧
    chatAutoTurn ⟨[], [], [], [], []⟩ [] 0 true
      (.obj [("has_transaction", .bool true), ("transaction_type", .str "depense"),
        ("details", .obj [("montant_total", .num ⟨200, 0⟩), ("categorie", .str "x")]),
        ("confidence", .num ⟨9, 1⟩)]) false "ok" =
      ⟨⟨[], [], [], [], []⟩, none, none, "ok"⟩ := ⟨rfl, rfl⟩

/-- C8 as amended: a confident expense intent with a missing, non-numeric or
too-low amount creates no row and appends the minimum-100 instruction; with a
valid amount and a category that (after the `or "Autre"` default) is a string
of at least two characters, exactly one Expense row is created; but with a
valid amount and a present, truthy, invalid category (a non-string or a
string shorter than two characters) the source's elseless `if` creates no row
AND produces no feedback — the response is the bare reply. -/
theorem C8_expense_validation (lg : Ledger) (logs : List ChatLogRow) (now : Int)
    (intent : Json) (eng : Bool) (reply : String) (details mJ catJ0 descJ0 : Json)
    (hcount : recentAutoTxCount logs now < 10)
    (hg : gateResult intent = some true)
    (ht : intent.pyGet "transaction_type" = some (.str "depense"))
    (hdet : intent.pyGetD "details" (.obj []) = some details)
    (hm : details.pyGet "montant_total" = some mJ)
    (hcat : details.pyGet "categorie" = some catJ0)
    (hdesc : details.pyGet "description" = some descJ0) :
    (numAtLeast mJ ⟨100, 0⟩ = false →
      chatAutoTurn lg logs now true intent eng reply =
        ⟨lg, none, some (askAmount100Msg eng),
          composeResponse ⟨lg, none, some (askAmount100Msg eng), reply⟩⟩) ∧
    (∀ cat, numAtLeast mJ ⟨100, 0⟩ = true →
      (if catJ0.truthy = true then catJ0 else Json.str "Autre") = .str cat →
      2 ≤ cat.length →
      (chatAutoTurn lg logs now true intent eng reply).ledger.depenses =
        lg.depenses ++ [⟨cat, JNum.trunc ((mJ.asPyNum).getD ⟨0, 0⟩),
          (match (if descJ0.truthy = true then descJ0 else Json.str "") with
            | .str d => strTake d 500
            | _ => "")⟩] ∧
      100 ≤ JNum.trunc ((mJ.asPyNum).getD ⟨0, 0⟩) ∧
      (chatAutoTurn lg logs now true intent eng reply).ledger.produits = lg.produits ∧
      (chatAutoTurn lg logs now true intent eng reply).ledger.ventes = lg.ventes ∧
      (chatAutoTurn lg logs now true intent eng reply).ledger.dettes = lg.dettes ∧
      (chatAutoTurn lg logs now true intent eng reply).ledger.paiements = lg.paiements ∧
      (chatAutoTurn lg logs now true intent eng reply).txRecorded.isSome = true) ∧
    (∀ catJ, numAtLeast mJ ⟨100, 0⟩ = true →
      (if catJ0.truthy = true then catJ0 else Json.str "Autre") = catJ →
      ((∀ c, catJ ≠ .str c) ∨ ∃ c, catJ = .str c ∧ c.length < 2) →
      chatAutoTurn lg logs now true intent eng reply = ⟨lg, none, none, reply⟩) := by
  have hcore := core_depense lg intent eng reply details mJ catJ0 descJ0 hg ht hdet hm hcat hdesc
  have hturn := chatAutoTurn_of_core lg logs now intent eng reply _ hcount hcore
  refine ⟨?_, ?_, ?_⟩
  · intro hmfail
    have hchk : depenseChecked lg mJ catJ0 descJ0 eng reply =
        ⟨lg, none, some (askAmount100Msg eng), reply⟩ := by
      unfold depenseChecked
      rw [if_neg (by simp [hmfail])]
    rw [hturn, hchk]
  · intro cat hm100 hcatstr hlen
    have hchk : depenseChecked lg mJ catJ0 descJ0 eng reply =
        depenseCommit lg (JNum.trunc ((mJ.asPyNum).getD ⟨0, 0⟩)) cat
          (match (if descJ0.truthy = true then descJ0 else Json.str "") with
            | .str d => strTake d 500
            | _ => "") eng := by
      unfold depenseChecked
      rw [if_pos hm100, hcatstr, depenseCatChecked_str, if_pos hlen]
    rw [hturn, hchk]
    obtain ⟨a, ha, hble⟩ := numAtLeast_spec mJ ⟨100, 0⟩ hm100
    have h100 : 100 ≤ JNum.trunc ((mJ.asPyNum).getD ⟨0, 0⟩) := by
      rw [ha]
      exact_mod_cast JNum.le_trunc_of_ble 100 a hble
    exact ⟨rfl, h100, rfl, rfl, rfl, rfl, rfl⟩
  · intro catJ hm100 hcatstr hbad
    have hchk : depenseChecked lg mJ catJ0 descJ0 eng reply = ⟨lg, none, none, reply⟩ := by
      unfold depenseChecked
      rw [if_pos hm100, hcatstr]
      cases catJ with
      | str c =>
        rcases hbad with hns | ⟨c2, hc2, hlen⟩
        · exact absurd rfl (hns c)
        · have hcc : c = c2 := by
            injection hc2
          subst hcc
          rw [depenseCatChecked_str, if_neg (by omega)]
      | null => rfl
      | bool b => rfl
      | num a => rfl
      | arr xs => rfl
      | obj fs => rfl
    rw [hturn, hchk]
    rfl

/-- Witness for C8 (amended): amount 20000 with an omitted category defaults
to "Autre" and creates the row. -/
theorem C8_expense_validation_witness :
    (chatAutoTurn ⟨[], [], [], [], []⟩ [] 0 true
      (.obj [("has_transaction", .bool true), ("transaction_type", .str "depense"),
        ("details", .obj [("montant_total", .num ⟨20000, 0⟩)]),
        ("confidence", .num ⟨9, 1⟩)]) false "ok").ledger.depenses =
      [⟨"Autre", 20000, ""⟩] := by
  have h := ((C8_expense_validation ⟨[], [], [], [], []⟩ [] 0
    (.obj [("has_transaction", .bool true), ("transaction_type", .str "depense"),
      ("details", .obj [("montant_total", .num ⟨20000, 0⟩)]),
      ("confidence", .num ⟨9, 1⟩)]) false "ok"
    (.obj [("montant_total", .num ⟨20000, 0⟩)]) (.num ⟨20000, 0⟩) .null .null
    (by decide) rfl rfl rfl rfl rfl rfl).2.1 "Autre" rfl rfl (by decide)).1
  exact h

theorem core_vente (lg : Ledger) (intent : Json) (eng : Bool) (reply : String)
    (details pnJ qJ : Json)
    (hg : gateResult intent = some true)
    (ht : intent.pyGet "transaction_type" = some (.str "vente"))
    (hdet : intent.pyGetD "details" (.obj []) = some details)
    (hpn : details.pyGet "produit_nom" = some pnJ)
    (hq : details.pyGet "quantite" = some qJ) :
    commitIntentCore lg intent eng reply = some (venteChecked lg pnJ qJ eng reply) := by
  rw [core_gate_true lg intent eng reply _ details hg ht hdet,
    if_pos (by simp [Json.eqStr])]
  unfold commitVente
  rw [hpn, hq]

/-- C7 counterexample: the extracted quantity 2.5 is a number but not an
integer (its value differs from its truncation), yet the guard
`quantite and isinstance(quantite, (int, float)) and quantite >= 1` of
main.py line 1264 accepts it, truncates it to 2 and commits a Sale of
quantity 2 with no request to specify the quantity — where the claim says a
sale is auto-recorded only for an integer quantity and otherwise no Sale row
is created and the user is asked for the quantity. -/
theorem C7_counterexample :
    JNum.toRat ⟨25, 1⟩ ≠ ((JNum.trunc ⟨25, 1⟩ : Int) : ℚ) ∧
    (chatAutoTurn ⟨[⟨1, "riz", 15000, 10, true, false⟩], [], [], [], []⟩ [] 0 true
      (.obj [("has_transaction", .bool true), ("transaction_type", .str "vente"),
        ("details", .obj [("produit_nom", .str "riz"), ("quantite", .num ⟨25, 1⟩)]),
        ("confidence", .num ⟨9, 1⟩)]) false "ok").ledger.ventes =
      [⟨1, 2, 15000, 30000⟩] ∧
    (chatAutoTurn ⟨[⟨1, "riz", 15000, 10, true, false⟩], [], [], [], []⟩ [] 0 true
      (.obj [("has_transaction", .bool true), ("transaction_type", .str "vente"),
        ("details", .obj [("produit_nom", .str "riz"), ("quantite", .num ⟨25, 1⟩)]),
        ("confidence", .num ⟨9, 1⟩)]) false "ok").feedback = none := by
  refine ⟨?_, rfl, rfl⟩
  have htr : JNum.trunc ⟨25, 1⟩ = 2 := rfl
  rw [htr]
  norm_num [JNum.toRat]

/-- C7 as amended: for a confident sale intent with a valid product name, a
missing quantity or one that is not a number ≥ 1 commits nothing, leaves the
stock untouched and asks the user to specify the quantity; a Sale row is
appended only when the quantity passes the numeric guard, and the committed
quantity is the truncation toward zero of the extracted number (an integer
≥ 1), floats being accepted and truncated rather than rejected. -/
theorem C7_quantity_validation (lg : Ledger) (logs : List ChatLogRow) (now : Int)
    (intent : Json) (eng : Bool) (reply : String) (details pnJ qJ : Json)
    (hcount : recentAutoTxCount logs now < 10)
    (hg : gateResult intent = some true)
    (ht : intent.pyGet "transaction_type" = some (.str "vente"))
    (hdet : intent.pyGetD "details" (.obj []) = some details)
    (hpn : details.pyGet "produit_nom" = some pnJ)
    (hq : details.pyGet "quantite" = some qJ) :
    (strAtLeast pnJ 2 = true → numAtLeast qJ ⟨1, 0⟩ = false →
      chatAutoTurn lg logs now true intent eng reply =
        ⟨lg, none, some (askQuantityMsg eng),
          composeResponse ⟨lg, none, some (askQuantityMsg eng), reply⟩⟩) ∧
    ((chatAutoTurn lg logs now true intent eng reply).ledger.ventes ≠ lg.ventes →
      numAtLeast qJ ⟨1, 0⟩ = true) ∧
    (∀ v, (chatAutoTurn lg logs now true intent eng reply).ledger.ventes =
        lg.ventes ++ [v] →
      v.quantite = JNum.trunc ((qJ.asPyNum).getD ⟨0, 0⟩) ∧ 1 ≤ v.quantite) := by
  have hcore := core_vente lg intent eng reply details pnJ qJ hg ht hdet hpn hq
  have hturn := chatAutoTurn_of_core lg logs now intent eng reply _ hcount hcore
  refine ⟨?_, ?_, ?_⟩
  · intro hpn2 hqfail
    have hchk : venteChecked lg pnJ qJ eng reply =
        ⟨lg, none, some (askQuantityMsg eng), reply⟩ := by
      unfold venteChecked
      rw [if_pos hpn2, if_neg (by simp [hqfail])]
    rw [hturn, hchk]
  · intro hne
    rw [hturn] at hne
    rcases venteChecked_characterize lg pnJ qJ eng reply _ rfl with ⟨hl, _⟩ |
      ⟨pn, p, _, _, hqok, _, _, _⟩
    · exact absurd (congrArg Ledger.ventes hl) hne
    · exact hqok
  · intro v hv
    rw [hturn] at hv
    rcases venteChecked_characterize lg pnJ qJ eng reply _ rfl with ⟨hl, _⟩ |
      ⟨pn, p, _, _, hqok, _, _, hr⟩
    · rw [congrArg Ledger.ventes hl] at hv
      exact absurd hv.symm (by simp)
    · rw [hr] at hv
      have hv' : lg.ventes ++ [(⟨p.id, JNum.trunc ((qJ.asPyNum).getD ⟨0, 0⟩),
          p.prix_unitaire,
          JNum.trunc ((qJ.asPyNum).getD ⟨0, 0⟩) * p.prix_unitaire⟩ : Vente)] =
          lg.ventes ++ [v] := hv
      have hv2 : [(⟨p.id, JNum.trunc ((qJ.asPyNum).getD ⟨0, 0⟩), p.prix_unitaire,
          JNum.trunc ((qJ.asPyNum).getD ⟨0, 0⟩) * p.prix_unitaire⟩ : Vente)] = [v] := by
        simpa using hv'
      have hveq : v = ⟨p.id, JNum.trunc ((qJ.asPyNum).getD ⟨0, 0⟩), p.prix_unitaire,
          JNum.trunc ((qJ.asPyNum).getD ⟨0, 0⟩) * p.prix_unitaire⟩ := by
        injection hv2 with h1 h2
        exact h1.symm
      subst hveq
      refine ⟨rfl, ?_⟩
      obtain ⟨a, ha, hble⟩ := numAtLeast_spec qJ ⟨1, 0⟩ hqok
      show 1 ≤ JNum.trunc ((qJ.asPyNum).getD ⟨0, 0⟩)
      rw [ha]
      exact_mod_cast JNum.le_trunc_of_ble 1 a hble

/-- Witness for C7 (amended): a sale intent with a valid product but no
quantity commits nothing and asks for the quantity. -/
theorem C7_quantity_validation_witness :
    chatAutoTurn ⟨[⟨1, "riz", 15000, 10, true, false⟩], [], [], [], []⟩ [] 0 true
      (.obj [("has_transaction", .bool true), ("transaction_type", .str "vente"),
        ("details", .obj [("produit_nom", .str "riz")]),
        ("confidence", .num ⟨9, 1⟩)]) false "ok" =
      ⟨⟨[⟨1, "riz", 15000, 10, true, false⟩], [], [], [], []⟩, none,
        some (askQuantityMsg false),
        composeResponse ⟨⟨[⟨1, "riz", 15000, 10, true, false⟩], [], [], [], []⟩, none,
          some (askQuantityMsg false), "ok"⟩⟩ :=
  (C7_quantity_validation ⟨[⟨1, "riz", 15000, 10, true, false⟩], [], [], [], []⟩ [] 0
    (.obj [("has_transaction", .bool true), ("transaction_type", .str "vente"),
      ("details", .obj [("produit_nom", .str "riz")]),
      ("confidence", .num ⟨9, 1⟩)]) false "ok"
    (.obj [("produit_nom", .str "riz")]) (.str "riz") .null
    (by decide) rfl rfl rfl rfl rfl).1 rfl rfl

theorem core_sale_characterize (lg : Ledger) (intent : Json) (eng : Bool)
    (reply : String) (r : CommitResult)
    (h : commitIntentCore lg intent eng reply = some r) :
    (r.ledger.produits = lg.produits ∧ r.ledger.ventes = lg.ventes) ∨
    (∃ pn qJ p,
      numAtLeast qJ ⟨1, 0⟩ = true ∧
      resolveProduit lg.produits pn = some p ∧
      JNum.trunc ((qJ.asPyNum).getD ⟨0, 0⟩) ≤ p.quantite_stock ∧
      r.ledger.produits = updateFirstMatch lg.produits (resolvePred pn)
        (decStock (JNum.trunc ((qJ.asPyNum).getD ⟨0, 0⟩))) ∧
      r.ledger.ventes = lg.ventes ++
        [⟨p.id, JNum.trunc ((qJ.asPyNum).getD ⟨0, 0⟩), p.prix_unitaire,
          JNum.trunc ((qJ.asPyNum).getD ⟨0, 0⟩) * p.prix_unitaire⟩]) := by
  cases hg : gateResult intent with
  | none =>
    unfold commitIntentCore at h
    rw [hg] at h
    exact Option.noConfusion h
  | some b =>
    cases b with
    | false =>
      have heq := (gateResult_false_core lg intent eng reply hg).symm.trans h
      have hr := Option.some.inj heq
      rw [← hr]
      exact Or.inl ⟨rfl, rfl⟩
    | true =>
      obtain ⟨ht0, c0, a0, hht, _, _, _, _⟩ := gateResult_true_elim intent hg
      obtain ⟨txType, htt⟩ := obj_pyGet_some intent "has_transaction" "transaction_type" _ hht
      obtain ⟨details, hdd⟩ :=
        obj_pyGetD_some intent "has_transaction" "details" _ (.obj []) hht
      rw [core_gate_true lg intent eng reply txType details hg htt hdd] at h
      by_cases hv : txType.eqStr "vente" = true
      · rw [if_pos hv] at h
        rcases commitVente_characterize lg details eng reply r h with
          ⟨hl, _⟩ | ⟨pn, qJ, p, _, _, _, hq, hres, hstock, hr⟩
        · rw [hl]
          exact Or.inl ⟨rfl, rfl⟩
        · subst hr
          exact Or.inr ⟨pn, qJ, p, hq, hres, hstock, rfl, rfl⟩
      · rw [if_neg hv] at h
        by_cases hd : txType.eqStr "depense" = true
        · rw [if_pos hd] at h
          obtain ⟨mJ, catJ0, descJ0, _, _, _, hr⟩ :=
            commitDepense_eq_some lg details eng reply r h
          have hch := depenseChecked_characterize lg mJ catJ0 descJ0 eng reply r hr.symm
          exact Or.inl ⟨hch.1, hch.2.1⟩
        · rw [if_neg hd] at h
          by_cases hdt : txType.eqStr "dette" = true
          · rw [if_pos hdt] at h
            obtain ⟨cJ, mJ, _, _, hr⟩ := commitDette_eq_some lg details eng reply r h
            have hch := detteChecked_characterize lg cJ mJ eng reply r hr.symm
            exact Or.inl ⟨hch.1, hch.2.1⟩
          · rw [if_neg hdt] at h
            have hr := Option.some.inj h
            rw [← hr]
            exact Or.inl ⟨rfl, rfl⟩

theorem turn_sale_characterize (lg : Ledger) (logs : List ChatLogRow) (now : Int)
    (ar : Bool) (intent : Json) (eng : Bool) (reply : String) :
    ((chatAutoTurn lg logs now ar intent eng reply).ledger.produits = lg.produits ∧
      (chatAutoTurn lg logs now ar intent eng reply).ledger.ventes = lg.ventes) ∨
    (∃ pn qJ p,
      numAtLeast qJ ⟨1, 0⟩ = true ∧
      resolveProduit lg.produits pn = some p ∧
      JNum.trunc ((qJ.asPyNum).getD ⟨0, 0⟩) ≤ p.quantite_stock ∧
      (chatAutoTurn lg logs now ar intent eng reply).ledger.produits =
        updateFirstMatch lg.produits (resolvePred pn)
          (decStock (JNum.trunc ((qJ.asPyNum).getD ⟨0, 0⟩))) ∧
      (chatAutoTurn lg logs now ar intent eng reply).ledger.ventes = lg.ventes ++
        [⟨p.id, JNum.trunc ((qJ.asPyNum).getD ⟨0, 0⟩), p.prix_unitaire,
          JNum.trunc ((qJ.asPyNum).getD ⟨0, 0⟩) * p.prix_unitaire⟩]) := by
  cases ar with
  | false => exact Or.inl ⟨rfl, rfl⟩
  | true =>
    by_cases hcount : 10 ≤ recentAutoTxCount logs now
    · have hturn : chatAutoTurn lg logs now true intent eng reply =
          ⟨lg, none, some (rateLimitMsg eng),
            composeResponse ⟨lg, none, some (rateLimitMsg eng), reply⟩⟩ := by
        unfold chatAutoTurn
        rw [if_pos rfl, if_pos hcount]
      rw [hturn]
      exact Or.inl ⟨rfl, rfl⟩
    · cases hcore : commitIntentCore lg intent eng reply with
      | none =>
        rw [chatAutoTurn_of_core_none lg logs now intent eng reply (by omega) hcore]
        exact Or.inl ⟨rfl, rfl⟩
      | some r =>
        rw [chatAutoTurn_of_core lg logs now intent eng reply r (by omega) hcore]
        rcases core_sale_characterize lg intent eng reply r hcore with ⟨h1, h2⟩ |
          ⟨pn, qJ, p, hq, hres, hstock, hp, hv⟩
        · exact Or.inl ⟨h1, h2⟩
        · exact Or.inr ⟨pn, qJ, p, hq, hres, hstock, hp, hv⟩

/-- C6: every auto-recorded Sale row snapshots the resolved product's unit
price at commit time, and its total is quantity × that snapshot; in
particular the spec's scenario — catalog riz at 15000 with stock 10, a
confident (0.95) sale of 2 — commits Vente(quantite 2, montant_total 30000)
and the product's stock becomes 8, with the localized confirmation carrying
the amounts. -/
theorem C6_price_snapshot (lg : Ledger) (logs : List ChatLogRow) (now : Int)
    (ar : Bool) (intent : Json) (eng : Bool) (reply : String) :
    (∀ v, (chatAutoTurn lg logs now ar intent eng reply).ledger.ventes =
        lg.ventes ++ [v] →
      ∃ pn p, resolveProduit lg.produits pn = some p ∧ v.produit_id = p.id ∧
        v.prix_unitaire = p.prix_unitaire ∧
        v.montant_total = v.quantite * p.prix_unitaire) ∧
    chatAutoTurn ⟨[⟨1, "riz", 15000, 10, true, false⟩], [], [], [], []⟩ [] 0 true
      (.obj [("has_transaction", .bool true), ("transaction_type", .str "vente"),
        ("details", .obj [("produit_nom", .str "riz"), ("quantite", .num ⟨2, 0⟩)]),
        ("confidence", .num ⟨95, 2⟩)]) false "ok" =
      ⟨⟨[⟨1, "riz", 15000, 8, true, false⟩], [⟨1, 2, 15000, 30000⟩], [], [], []⟩,
        some (.obj [("type", .str "vente"),
          ("details", .obj [("produit", .str "riz"), ("quantite", .num ⟨2, 0⟩),
            ("montant", .num ⟨30000, 0⟩)]),
          ("success", .bool true),
          ("message", .str "Vente enregistrée: 2x riz = 30 000 FCFA")]),
        none, "C\x27est noté ! Vente enregistrée: 2x riz = 30 000 FCFA 💪"⟩ := by
  constructor
  · intro v hv
    rcases turn_sale_characterize lg logs now ar intent eng reply with ⟨_, h2⟩ |
      ⟨pn, qJ, p, _, hres, _, _, hvent⟩
    · rw [h2] at hv
      exact absurd hv.symm (by simp)
    · rw [hvent] at hv
      have hv2 : [(⟨p.id, JNum.trunc ((qJ.asPyNum).getD ⟨0, 0⟩), p.prix_unitaire,
          JNum.trunc ((qJ.asPyNum).getD ⟨0, 0⟩) * p.prix_unitaire⟩ : Vente)] = [v] := by
        simpa using hv
      have hveq : v = ⟨p.id, JNum.trunc ((qJ.asPyNum).getD ⟨0, 0⟩), p.prix_unitaire,
          JNum.trunc ((qJ.asPyNum).getD ⟨0, 0⟩) * p.prix_unitaire⟩ := by
        injection hv2 with h1 h2
        exact h1.symm
      subst hveq
      exact ⟨pn, p, hres, rfl, rfl, rfl⟩
  · rfl

/-- Witness for C6: the committed scenario row indeed snapshots riz's price. -/
theorem C6_price_snapshot_witness :
    ∃ pn p, resolveProduit [⟨1, "riz", 15000, 10, true, false⟩] pn = some p ∧
      (⟨1, 2, 15000, 30000⟩ : Vente).produit_id = p.id ∧
      (⟨1, 2, 15000, 30000⟩ : Vente).prix_unitaire = p.prix_unitaire ∧
      (⟨1, 2, 15000, 30000⟩ : Vente).montant_total =
        (⟨1, 2, 15000, 30000⟩ : Vente).quantite * p.prix_unitaire :=
  (C6_price_snapshot ⟨[⟨1, "riz", 15000, 10, true, false⟩], [], [], [], []⟩ [] 0 true
    (.obj [("has_transaction", .bool true), ("transaction_type", .str "vente"),
      ("details", .obj [("produit_nom", .str "riz"), ("quantite", .num ⟨2, 0⟩)]),
      ("confidence", .num ⟨95, 2⟩)]) false "ok").1 ⟨1, 2, 15000, 30000⟩ rfl

theorem venteChecked_insufficient (lg : Ledger) (pnJ qJ : Json) (eng : Bool)
    (reply : String) (pn : String) (p : Produit)
    (hpn : pnJ = .str pn) (hlen : 2 ≤ pn.length) (hq : numAtLeast qJ ⟨1, 0⟩ = true)
    (hres : resolveProduit lg.produits pn = some p)
    (hlt : p.quantite_stock < JNum.trunc ((qJ.asPyNum).getD ⟨0, 0⟩)) :
    venteChecked lg pnJ qJ eng reply = ⟨lg, none, some (insufficientMsg eng p), reply⟩ := by
  subst hpn
  unfold venteChecked
  rw [if_pos (strAtLeast_two_intro pn hlen), if_pos hq]
  simp only [Json.pyStr]
  rw [hres]
  show (if JNum.trunc ((qJ.asPyNum).getD ⟨0, 0⟩) ≤ p.quantite_stock then
      venteCommit lg p pn (JNum.trunc ((qJ.asPyNum).getD ⟨0, 0⟩)) eng
    else ⟨lg, none, some (insufficientMsg eng p), reply⟩) =
    ⟨lg, none, some (insufficientMsg eng p), reply⟩
  rw [if_neg (by omega)]

theorem venteChecked_notfound (lg : Ledger) (pnJ qJ : Json) (eng : Bool)
    (reply : String) (pn : String)
    (hpn : pnJ = .str pn) (hlen : 2 ≤ pn.length) (hq : numAtLeast qJ ⟨1, 0⟩ = true)
    (hres : resolveProduit lg.produits pn = none) :
    venteChecked lg pnJ qJ eng reply = ⟨lg, none, some (notFoundMsg eng pn), reply⟩ := by
  subst hpn
  unfold venteChecked
  rw [if_pos (strAtLeast_two_intro pn hlen), if_pos hq]
  simp only [Json.pyStr]
  rw [hres]

/-- C2 counterexample: in the spec's own sale scenario the commit happens and
the post-commit stock is 8, but the response's confirmation — the
`transaction_recorded` descriptor and its message (main.py lines 1289-1295) —
exposes only the product name, the quantity 2 and the total 30000: it has no
stock field, no value equal to 8, and the digit 8 does not even occur in the
confirmation text, so "this post-commit stock equals the stock visible in
the same response's confirmation" has no counterpart in the code. -/
theorem C2_counterexample :
    (chatAutoTurn ⟨[⟨1, "riz", 15000, 10, true, false⟩], [], [], [], []⟩ [] 0 true
      (.obj [("has_transaction", .bool true), ("transaction_type", .str "vente"),
        ("details", .obj [("produit_nom", .str "riz"), ("quantite", .num ⟨2, 0⟩)]),
        ("confidence", .num ⟨95, 2⟩)]) false "ok").ledger.produits =
      [⟨1, "riz", 15000, 8, true, false⟩] ∧
    (chatAutoTurn ⟨[⟨1, "riz", 15000, 10, true, false⟩], [], [], [], []⟩ [] 0 true
      (.obj [("has_transaction", .bool true), ("transaction_type", .str "vente"),
        ("details", .obj [("produit_nom", .str "riz"), ("quantite", .num ⟨2, 0⟩)]),
        ("confidence", .num ⟨95, 2⟩)]) false "ok").txRecorded =
      some (.obj [("type", .str "vente"),
        ("details", .obj [("produit", .str "riz"), ("quantite", .num ⟨2, 0⟩),
          ("montant", .num ⟨30000, 0⟩)]),
        ("success", .bool true),
        ("message", .str "Vente enregistrée: 2x riz = 30 000 FCFA")]) ∧
    Json.lookupField [("produit", .str "riz"), ("quantite", .num ⟨2, 0⟩),
      ("montant", .num ⟨30000, 0⟩)] "stock" = none ∧
    JNum.toRat ⟨2, 0⟩ ≠ 8 ∧ JNum.toRat ⟨30000, 0⟩ ≠ 8 ∧
    strContains "Vente enregistrée: 2x riz = 30 000 FCFA" "8" = false ∧
    strContains "C\x27est noté ! Vente enregistrée: 2x riz = 30 000 FCFA 💪" "8" = false := by
  refine ⟨rfl, rfl, rfl, ?_, ?_, rfl, rfl⟩
  · norm_num [JNum.toRat]
  · norm_num [JNum.toRat]

/-- C2 as amended: stocks never go negative (a sale that would drive the
resolved product's stock below zero is refused with the insufficient-stock
feedback and leaves every row unchanged), and the Sale-row creation and the
stock decrement are applied together or not at all: either no Sale row is
appended and the products are untouched, or exactly one Sale row is appended
while the resolved product's stock becomes its previous stock minus the sale
quantity, still nonnegative.  The response's confirmation carries the
quantity and the total, not the stock. -/
theorem C2_stock_invariant (lg : Ledger) (logs : List ChatLogRow) (now : Int)
    (ar : Bool) (intent : Json) (eng : Bool) (reply : String)
    (hnn : ∀ p ∈ lg.produits, 0 ≤ p.quantite_stock) :
    (∀ x ∈ (chatAutoTurn lg logs now ar intent eng reply).ledger.produits,
      0 ≤ x.quantite_stock) ∧
    (((chatAutoTurn lg logs now ar intent eng reply).ledger.produits = lg.produits ∧
      (chatAutoTurn lg logs now ar intent eng reply).ledger.ventes = lg.ventes) ∨
    (∃ (pn : String) (qJ : Json) (p : Produit) (l1 l2 : List Produit),
      resolveProduit lg.produits pn = some p ∧
      lg.produits = l1 ++ p :: l2 ∧
      (chatAutoTurn lg logs now ar intent eng reply).ledger.produits =
        l1 ++ decStock (JNum.trunc ((qJ.asPyNum).getD ⟨0, 0⟩)) p :: l2 ∧
      (decStock (JNum.trunc ((qJ.asPyNum).getD ⟨0, 0⟩)) p).quantite_stock =
        p.quantite_stock - JNum.trunc ((qJ.asPyNum).getD ⟨0, 0⟩) ∧
      0 ≤ (decStock (JNum.trunc ((qJ.asPyNum).getD ⟨0, 0⟩)) p).quantite_stock ∧
      (chatAutoTurn lg logs now ar intent eng reply).ledger.ventes = lg.ventes ++
        [⟨p.id, JNum.trunc ((qJ.asPyNum).getD ⟨0, 0⟩), p.prix_unitaire,
          JNum.trunc ((qJ.asPyNum).getD ⟨0, 0⟩) * p.prix_unitaire⟩])) ∧
    (∀ details pnJ qJ pn p, recentAutoTxCount logs now < 10 →
      gateResult intent = some true →
      intent.pyGet "transaction_type" = some (.str "vente") →
      intent.pyGetD "details" (.obj []) = some details →
      details.pyGet "produit_nom" = some pnJ → pnJ = .str pn → 2 ≤ pn.length →
      details.pyGet "quantite" = some qJ → numAtLeast qJ ⟨1, 0⟩ = true →
      resolveProduit lg.produits pn = some p →
      p.quantite_stock < JNum.trunc ((qJ.asPyNum).getD ⟨0, 0⟩) →
      chatAutoTurn lg logs now true intent eng reply =
        ⟨lg, none, some (insufficientMsg eng p),
          composeResponse ⟨lg, none, some (insufficientMsg eng p), reply⟩⟩) := by
  have hmain : ((chatAutoTurn lg logs now ar intent eng reply).ledger.produits =
        lg.produits ∧
      (chatAutoTurn lg logs now ar intent eng reply).ledger.ventes = lg.ventes) ∨
    (∃ (pn : String) (qJ : Json) (p : Produit) (l1 l2 : List Produit),
      resolveProduit lg.produits pn = some p ∧
      lg.produits = l1 ++ p :: l2 ∧
      (chatAutoTurn lg logs now ar intent eng reply).ledger.produits =
        l1 ++ decStock (JNum.trunc ((qJ.asPyNum).getD ⟨0, 0⟩)) p :: l2 ∧
      (decStock (JNum.trunc ((qJ.asPyNum).getD ⟨0, 0⟩)) p).quantite_stock =
        p.quantite_stock - JNum.trunc ((qJ.asPyNum).getD ⟨0, 0⟩) ∧
      0 ≤ (decStock (JNum.trunc ((qJ.asPyNum).getD ⟨0, 0⟩)) p).quantite_stock ∧
      (chatAutoTurn lg logs now ar intent eng reply).ledger.ventes = lg.ventes ++
        [⟨p.id, JNum.trunc ((qJ.asPyNum).getD ⟨0, 0⟩), p.prix_unitaire,
          JNum.trunc ((qJ.asPyNum).getD ⟨0, 0⟩) * p.prix_unitaire⟩]) := by
    rcases turn_sale_characterize lg logs now ar intent eng reply with ⟨h1, h2⟩ |
      ⟨pn, qJ, p, hq, hres, hstock, hp, hv⟩
    · exact Or.inl ⟨h1, h2⟩
    · obtain ⟨hpred, l1, l2, hsplit, hl1⟩ := find?_first (resolvePred pn) lg.produits p hres
      refine Or.inr ⟨pn, qJ, p, l1, l2, hres, hsplit, ?_, rfl, ?_, hv⟩
      · rw [hp, hsplit, updateFirstMatch_append (resolvePred pn) _ l1 p l2 hl1 hpred]
      · show 0 ≤ p.quantite_stock - JNum.trunc ((qJ.asPyNum).getD ⟨0, 0⟩)
        omega
  refine ⟨?_, hmain, ?_⟩
  · rcases hmain with ⟨h1, _⟩ | ⟨pn, qJ, p, l1, l2, _, hsplit, hp, _, hge, _⟩
    · rw [h1]
      exact hnn
    · rw [hp]
      intro x hx
      rcases List.mem_append.mp hx with hx1 | hx2
      · exact hnn x (by rw [hsplit]; exact List.mem_append.mpr (Or.inl hx1))
      · rcases List.mem_cons.mp hx2 with hxd | hx3
        · rw [hxd]
          exact hge
        · exact hnn x (by
            rw [hsplit]
            exact List.mem_append.mpr (Or.inr (List.mem_cons_of_mem _ hx3)))
  · intro details pnJ qJ pn p hcount hg ht hdet hpng hpn hlen hqg hq hres hlt
    have hcore := core_vente lg intent eng reply details pnJ qJ hg ht hdet hpng hqg
    have hturn := chatAutoTurn_of_core lg logs now intent eng reply _ hcount hcore
    rw [hturn, venteChecked_insufficient lg pnJ qJ eng reply pn p hpn hlen hq hres hlt]

/-- Witness for C2 (amended), the spec's insufficient-stock scenario: stock 1,
requested quantity 2, confidence 0.9 — no Sale, stock unchanged, feedback
reports "1 available". -/
theorem C2_stock_invariant_witness :
    chatAutoTurn ⟨[⟨1, "riz", 15000, 1, true, false⟩], [], [], [], []⟩ [] 0 true
      (.obj [("has_transaction", .bool true), ("transaction_type", .str "vente"),
        ("details", .obj [("produit_nom", .str "riz"), ("quantite", .num ⟨2, 0⟩)]),
        ("confidence", .num ⟨9, 1⟩)]) true "ok" =
      ⟨⟨[⟨1, "riz", 15000, 1, true, false⟩], [], [], [], []⟩, none,
        some (insufficientMsg true ⟨1, "riz", 15000, 1, true, false⟩),
        composeResponse ⟨⟨[⟨1, "riz", 15000, 1, true, false⟩], [], [], [], []⟩, none,
          some (insufficientMsg true ⟨1, "riz", 15000, 1, true, false⟩), "ok"⟩⟩ :=
  (C2_stock_invariant ⟨[⟨1, "riz", 15000, 1, true, false⟩], [], [], [], []⟩ [] 0 true
    (.obj [("has_transaction", .bool true), ("transaction_type", .str "vente"),
      ("details", .obj [("produit_nom", .str "riz"), ("quantite", .num ⟨2, 0⟩)]),
      ("confidence", .num ⟨9, 1⟩)]) true "ok" (by decide)).2.2
    (.obj [("produit_nom", .str "riz"), ("quantite", .num ⟨2, 0⟩)])
    (.str "riz") (.num ⟨2, 0⟩) "riz" ⟨1, "riz", 15000, 1, true, false⟩
    (by decide) rfl rfl rfl rfl rfl (by decide) rfl rfl rfl (by decide)

theorem char_ofNat_toNat_of_low (n : Nat) (h2 : n ≤ 122) :
    (Char.ofNat n).toNat = n := by
  have hv : n.isValidChar := Or.inl (by omega)
  rw [Char.ofNat, dif_pos hv]
  simp [Char.ofNatAux, Char.toNat, UInt32.toNat, BitVec.toNat_ofNatLt]

theorem charLower_eq_wild (c : Char) (h : charLower c = '%' ∨ charLower c = '_') :
    c = '%' ∨ c = '_' := by
  unfold charLower at h
  by_cases hr : 'A' ≤ c ∧ c ≤ 'Z'
  · rw [if_pos hr] at h
    exfalso
    have hc1 : 65 ≤ c.toNat := by
      have hx := hr.1
      rw [Char.le_def, UInt32.le_def, BitVec.le_def] at hx
      exact hx
    have hc2 : c.toNat ≤ 90 := by
      have hx := hr.2
      rw [Char.le_def, UInt32.le_def, BitVec.le_def] at hx
      exact hx
    have htn : (Char.ofNat (c.toNat + 32)).toNat = c.toNat + 32 :=
      char_ofNat_toNat_of_low _ (by omega)
    rcases h with he | he
    · rw [he] at htn
      have h37 : (37 : Nat) = c.toNat + 32 := htn
      omega
    · rw [he] at htn
      have h95 : (95 : Nat) = c.toNat + 32 := htn
      omega
  · rw [if_neg hr] at h
    exact h

theorem noWild_strLower (nom : String) (h : noWild nom.data = true) :
    noWild (strLower nom).data = true := by
  show noWild (nom.data.map charLower) = true
  unfold noWild at h ⊢
  rw [List.all_eq_true] at h ⊢
  intro c hc
  rw [List.mem_map] at hc
  obtain ⟨c0, hc0, rfl⟩ := hc
  have h0 := h c0 hc0
  simp only [Bool.not_eq_eq_eq_not, Bool.not_true, Bool.or_eq_false_iff,
    decide_eq_false_iff_not] at h0 ⊢
  constructor
  · intro he
    rcases charLower_eq_wild c0 (Or.inl he) with h1 | h1
    · exact h0.1 h1
    · exact h0.2 h1
  · intro he
    rcases charLower_eq_wild c0 (Or.inr he) with h1 | h1
    · exact h0.1 h1
    · exact h0.2 h1

theorem likeAux_lit (fuel : Nat) : ∀ (l s : List Char), noWild l = true →
    l.length + s.length < fuel → (likeMatchAux fuel l s = true ↔ l = s) := by
  induction fuel with
  | zero =>
    intro l s _ hb
    omega
  | succ f ih =>
    intro l s hw hb
    cases l with
    | nil =>
      simp only [likeMatchAux]
      cases s with
      | nil => simp
      | cons c cs => simp
    | cons c cs =>
      have hw' : ¬ c = '%' ∧ ¬ c = '_' ∧ noWild cs = true := by
        unfold noWild at hw
        rw [List.all_cons] at hw
        simp only [Bool.and_eq_true, Bool.not_eq_eq_eq_not, Bool.not_true,
          Bool.or_eq_false_iff, decide_eq_false_iff_not] at hw
        exact ⟨hw.1.1, hw.1.2, hw.2⟩
      cases s with
      | nil =>
        simp only [likeMatchAux]
        rw [if_neg hw'.1]
        simp
      | cons c' cs' =>
        simp only [likeMatchAux]
        rw [if_neg hw'.1, if_neg hw'.2.1]
        rw [Bool.and_eq_true, beq_iff_eq]
        rw [ih cs cs' hw'.2.2 (by simp at hb ⊢; omega)]
        simp [List.cons.injEq]

theorem likeAux_pct (fuel : Nat) : ∀ s : List Char, s.length + 1 < fuel →
    likeMatchAux fuel ['%'] s = true := by
  induction fuel with
  | zero =>
    intro s hb
    omega
  | succ f ih =>
    intro s hb
    simp only [likeMatchAux]
    rw [if_pos trivial]
    rw [Bool.or_eq_true]
    cases s with
    | nil =>
      left
      cases f with
      | zero => omega
      | succ f2 => simp [likeMatchAux]
    | cons c cs =>
      right
      show likeMatchAux f ['%'] cs = true
      exact ih cs (by simp at hb ⊢; omega)

theorem likeAux_litpct (fuel : Nat) : ∀ (m s : List Char), noWild m = true →
    m.length + 1 + s.length < fuel →
    (likeMatchAux fuel (m ++ ['%']) s = true ↔ startsWithL m s = true) := by
  induction fuel with
  | zero =>
    intro m s _ hb
    omega
  | succ f ih =>
    intro m s hw hb
    cases m with
    | nil =>
      simp only [List.nil_append]
      constructor
      · intro _
        rfl
      · intro _
        exact likeAux_pct (f + 1) s (by simp at hb ⊢; omega)
    | cons c ms =>
      have hw' : ¬ c = '%' ∧ ¬ c = '_' ∧ noWild ms = true := by
        unfold noWild at hw
        rw [List.all_cons] at hw
        simp only [Bool.and_eq_true, Bool.not_eq_eq_eq_not, Bool.not_true,
          Bool.or_eq_false_iff, decide_eq_false_iff_not] at hw
        exact ⟨hw.1.1, hw.1.2, hw.2⟩
      cases s with
      | nil =>
        simp only [List.cons_append, likeMatchAux]
        rw [if_neg hw'.1]
        simp [startsWithL]
      | cons c' cs' =>
        simp only [List.cons_append, likeMatchAux, List.append_eq]
        rw [if_neg hw'.1, if_neg hw'.2.1]
        rw [Bool.and_eq_true, beq_iff_eq]
        rw [ih ms cs' hw'.2.2 (by simp at hb ⊢; omega)]
        simp [startsWithL]

theorem likeAux_pctlitpct (fuel : Nat) : ∀ (m s : List Char), noWild m = true →
    m.length + 2 + s.length < fuel →
    (likeMatchAux fuel ('%' :: m ++ ['%']) s = true ↔ occursIn m s = true) := by
  induction fuel with
  | zero =>
    intro m s _ hb
    omega
  | succ f ih =>
    intro m s hw hb
    have h1 := likeAux_litpct f m s hw (by omega)
    cases s with
    | nil =>
      simp only [likeMatchAux, List.append_eq]
      rw [if_pos trivial]
      rw [Bool.or_false]
      rw [h1]
      unfold occursIn
      rfl
    | cons c cs =>
      have h2 := ih m cs hw (by simp at hb ⊢; omega)
      simp only [likeMatchAux, List.append_eq]
      rw [if_pos trivial]
      rw [Bool.or_eq_true]
      constructor
      · intro hd
        unfold occursIn
        rw [Bool.or_eq_true]
        rcases hd with hA | hB
        · exact Or.inl (h1.mp hA)
        · exact Or.inr (h2.mp hB)
      · intro hO
        unfold occursIn at hO
        rw [Bool.or_eq_true] at hO
        rcases hO with hA | hB
        · exact Or.inl (h1.mpr hA)
        · exact Or.inr (h2.mpr hB)

theorem likeMatch_contains (m s : List Char) (hw : noWild m = true) :
    likeMatch ('%' :: m ++ ['%']) s = occursIn m s := by
  unfold likeMatch
  have hlen : ('%' :: m ++ ['%']).length = m.length + 2 := by simp
  rw [hlen]
  have h := likeAux_pctlitpct (m.length + 2 + s.length + 1) m s hw (by omega)
  cases ho : occursIn m s with
  | true => exact h.mpr ho
  | false =>
    cases hl : likeMatchAux (m.length + 2 + s.length + 1) ('%' :: m ++ ['%']) s with
    | false => rfl
    | true =>
      rw [ho] at h
      exact absurd (h.mp hl) Bool.noConfusion

theorem string_append_data (a b : String) : (a ++ b).data = a.data ++ b.data := by
  cases a with
  | mk la =>
    cases b with
    | mk lb => rfl

theorem head_notFound (eng : Bool) (pn : String) :
    (notFoundMsg eng pn).data.head? = some 'P' := by
  cases eng with
  | false =>
    show (("Produit \x27" ++ pn) ++
      "\x27 non trouvé. Ajoutez-le dans le stock d\x27abord.").data.head? = some 'P'
    rw [string_append_data, string_append_data]
    rfl
  | true =>
    show (("Product \x27" ++ pn) ++ "\x27 not found. Add it to stock first.").data.head? =
      some 'P'
    rw [string_append_data, string_append_data]
    rfl

theorem head_insufficient (eng : Bool) (p : Produit) :
    (insufficientMsg eng p).data.head? = some (if eng then 'I' else 'S') := by
  cases eng with
  | false =>
    show (((("Stock insuffisant pour " ++ p.nom) ++ " (") ++ intStr p.quantite_stock) ++
      " disponible). Ajoutez du stock d\x27abord.").data.head? = some 'S'
    rw [string_append_data, string_append_data, string_append_data, string_append_data]
    rfl
  | true =>
    show (((("Insufficient stock for " ++ p.nom) ++ " (") ++ intStr p.quantite_stock) ++
      " available). Add stock first.").data.head? = some 'I'
    rw [string_append_data, string_append_data, string_append_data, string_append_data]
    rfl

theorem resolvePred_noWild (nom : String) (p : Produit) (hnw : noWild nom.data = true) :
    resolvePred nom p =
      (p.active && !p.deleted && strContains (strLower p.nom) (strLower nom)) := by
  unfold resolvePred
  rw [likeMatch_contains ((strLower nom).data) ((strLower p.nom).data)
    (noWild_strLower nom hnw)]
  rfl

/-- C5 counterexample: the resolver query interpolates the extracted name
into a LIKE pattern unescaped (main.py line 1269), so "_" is a
single-character wildcard.  With catalog ["riz"] and extracted name "r_z",
no product name contains "r_z" as a case-insensitive substring — the
spec-worded resolver returns none, so per the claim the user must get the
product-not-found feedback and no Sale — yet the code resolves riz, commits
the sale, and produces no feedback at all. -/
theorem C5_counterexample :
    specResolveSubstr [⟨1, "riz", 15000, 10, true, false⟩] "r_z" = none ∧
    resolveProduit [⟨1, "riz", 15000, 10, true, false⟩] "r_z" =
      some ⟨1, "riz", 15000, 10, true, false⟩ ∧
    (chatAutoTurn ⟨[⟨1, "riz", 15000, 10, true, false⟩], [], [], [], []⟩ [] 0 true
      (.obj [("has_transaction", .bool true), ("transaction_type", .str "vente"),
        ("details", .obj [("produit_nom", .str "r_z"), ("quantite", .num ⟨1, 0⟩)]),
        ("confidence", .num ⟨9, 1⟩)]) false "ok").ledger.ventes =
      [⟨1, 1, 15000, 15000⟩] ∧
    (chatAutoTurn ⟨[⟨1, "riz", 15000, 10, true, false⟩], [], [], [], []⟩ [] 0 true
      (.obj [("has_transaction", .bool true), ("transaction_type", .str "vente"),
        ("details", .obj [("produit_nom", .str "r_z"), ("quantite", .num ⟨1, 0⟩)]),
        ("confidence", .num ⟨9, 1⟩)]) false "ok").feedback = none :=
  ⟨rfl, rfl, rfl, rfl⟩

/-- C5 as amended: the Entity Resolver returns the first product, in catalog
iteration order, among the account's active non-deleted products whose
lowercased name matches the SQL LIKE pattern built from the lowercased
extracted name (so % and _ inside the extracted name act as wildcards); for
extracted names containing neither % nor _ this is exactly case-insensitive
substring containment, and the resolver coincides with the spec-worded
substring resolver.  When nothing matches, the turn produces the
product-not-found feedback, a string distinct from the insufficient-stock
feedback. -/
theorem C5_resolver_like :
    (∀ (produits : List Produit) (nom : String) (p : Produit),
      resolveProduit produits nom = some p →
      resolvePred nom p = true ∧ ∃ l1 l2, produits = l1 ++ p :: l2 ∧
        ∀ q ∈ l1, resolvePred nom q = false) ∧
    (∀ (produits : List Produit) (nom : String),
      resolveProduit produits nom = none ↔
        ∀ p ∈ produits, resolvePred nom p = false) ∧
    (∀ (nom : String) (p : Produit), noWild nom.data = true →
      resolvePred nom p =
        (p.active && !p.deleted && strContains (strLower p.nom) (strLower nom))) ∧
    (∀ (produits : List Produit) (nom : String), noWild nom.data = true →
      resolveProduit produits nom = specResolveSubstr produits nom) ∧
    (∀ (eng : Bool) (pn : String) (p : Produit),
      notFoundMsg eng pn ≠ insufficientMsg eng p) ∧
    (∀ (lg : Ledger) (logs : List ChatLogRow) (now : Int) (intent : Json)
      (eng : Bool) (reply : String) (details pnJ qJ : Json) (pn : String),
      recentAutoTxCount logs now < 10 →
      gateResult intent = some true →
      intent.pyGet "transaction_type" = some (.str "vente") →
      intent.pyGetD "details" (.obj []) = some details →
      details.pyGet "produit_nom" = some pnJ → pnJ = .str pn → 2 ≤ pn.length →
      details.pyGet "quantite" = some qJ → numAtLeast qJ ⟨1, 0⟩ = true →
      resolveProduit lg.produits pn = none →
      chatAutoTurn lg logs now true intent eng reply =
        ⟨lg, none, some (notFoundMsg eng pn),
          composeResponse ⟨lg, none, some (notFoundMsg eng pn), reply⟩⟩) := by
  refine ⟨?_, ?_, ?_, ?_, ?_, ?_⟩
  · intro produits nom p h
    obtain ⟨hp, l1, l2, hsplit, hall⟩ := find?_first (resolvePred nom) produits p h
    exact ⟨hp, l1, l2, hsplit, hall⟩
  · intro produits nom
    unfold resolveProduit
    rw [List.find?_eq_none]
    constructor
    · intro h p hp
      have := h p hp
      simpa using this
    · intro h p hp
      simp [h p hp]
  · intro nom p hnw
    exact resolvePred_noWild nom p hnw
  · intro produits nom hnw
    unfold resolveProduit specResolveSubstr
    congr 1
    funext p
    exact resolvePred_noWild nom p hnw
  · intro eng pn p h
    have h2 : (notFoundMsg eng pn).data.head? = (insufficientMsg eng p).data.head? :=
      congrArg (fun s : String => s.data.head?) h
    rw [head_notFound, head_insufficient] at h2
    cases eng <;> simp at h2
  · intro lg logs now intent eng reply details pnJ qJ pn hcount hg ht hdet hpng hpn
      hlen hqg hq hres
    have hcore := core_vente lg intent eng reply details pnJ qJ hg ht hdet hpng hqg
    have hturn := chatAutoTurn_of_core lg logs now intent eng reply _ hcount hcore
    rw [hturn, venteChecked_notfound lg pnJ qJ eng reply pn hpn hlen hq hres]

/-- Witness for C5 (amended): catalog ["savon"], extracted name "riz" — no
LIKE match, the turn reports product-not-found and commits nothing. -/
theorem C5_resolver_like_witness :
    chatAutoTurn ⟨[⟨1, "savon", 500, 10, true, false⟩], [], [], [], []⟩ [] 0 true
      (.obj [("has_transaction", .bool true), ("transaction_type", .str "vente"),
        ("details", .obj [("produit_nom", .str "riz"), ("quantite", .num ⟨1, 0⟩)]),
        ("confidence", .num ⟨9, 1⟩)]) false "ok" =
      ⟨⟨[⟨1, "savon", 500, 10, true, false⟩], [], [], [], []⟩, none,
        some (notFoundMsg false "riz"),
        composeResponse ⟨⟨[⟨1, "savon", 500, 10, true, false⟩], [], [], [], []⟩, none,
          some (notFoundMsg false "riz"), "ok"⟩⟩ :=
  C5_resolver_like.2.2.2.2.2
    ⟨[⟨1, "savon", 500, 10, true, false⟩], [], [], [], []⟩ [] 0
    (.obj [("has_transaction", .bool true), ("transaction_type", .str "vente"),
      ("details", .obj [("produit_nom", .str "riz"), ("quantite", .num ⟨1, 0⟩)]),
      ("confidence", .num ⟨9, 1⟩)]) false "ok"
    (.obj [("produit_nom", .str "riz"), ("quantite", .num ⟨1, 0⟩)])
    (.str "riz") (.num ⟨1, 0⟩) "riz"
    (by decide) rfl rfl rfl rfl rfl (by decide) rfl rfl rfl

end Djassa
